import Mathlib

/-!
# Donation backend (`backend/createSubscription.js`)

A shallow embedding of the three payment handlers of the Express server in
`src/backend/createSubscription.js`:

* `POST /create-order`        (source lines 192-231),
* `POST /create-subscription` (source lines 235-267),
* `POST /save-payment`        (source lines 273-377).

Request bodies are duck-typed JSON, so the embedding starts from a datatype of
JavaScript values together with the language's conversions (`ToBoolean`,
`ToNumber`, `ToString`).  The collaborators the handlers call but do not
implement (HMAC-SHA256, `Number::toString`, the Razorpay client, the Mongoose
`save`) are parameters.  Each handler is a pure function from its inputs to the
HTTP response, the resulting store, and the list of calls it made to its
collaborators.
-/

namespace Reiwametta

/-! ## JavaScript values -/

/-- JavaScript numbers (IEEE 754 doubles).  A finite number is represented by
the rational it denotes, and every operation rounds its exact result to the
nearest double (`roundToDouble`).  `-0` is identified with `0`. -/
inductive JsNum where
  | nan
  | posInf
  | negInf
  | fin (q : ℚ)
  deriving DecidableEq

/-- Rounding of a rational to the nearest integer, ties to the even one. -/
def roundHalfEven (x : ℚ) : ℤ :=
  let f := ⌊x⌋
  if x - f < 1 / 2 then f
  else if 1 / 2 < x - f then f + 1
  else if f % 2 = 0 then f else f + 1

/-- The exponent of the unit in the last place of the double nearest `q`: 52
below the binary exponent of `q`, and `-1074` throughout the subnormal
range. -/
def ulpExponent (q : ℚ) : ℤ :=
  max (Int.log 2 |q|) (-1022) - 52

/-- The double nearest to the rational `q`: round to nearest, ties to even,
with underflow to zero and overflow to an infinity. -/
def roundToDouble (q : ℚ) : JsNum :=
  let u := ulpExponent q
  let r : ℚ := (roundHalfEven (|q| / 2 ^ u) : ℚ) * 2 ^ u
  if (2 : ℚ) ^ (1024 : ℤ) ≤ r then (if 0 < q then JsNum.posInf else JsNum.negInf)
  else JsNum.fin (if q < 0 then -r else r)

/-- JavaScript values that can occur in a parsed request body, or as the
result of reading a property that is not there (`undefined`). -/
inductive JsVal where
  | undefined
  | null
  | bool (b : Bool)
  | num (n : JsNum)
  | str (s : String)
  | arr (xs : List JsVal)
  | obj (fields : List (String × JsVal))

/-- A request body (`req.body`): the fields of the parsed JSON object. -/
abbrev Body := List (String × JsVal)

/-- Reading property `key` of an object: `undefined` when it is not there. -/
def getField (fields : List (String × JsVal)) (key : String) : JsVal :=
  match fields with
  | [] => JsVal.undefined
  | (k, v) :: rest => if k = key then v else getField rest key

/-! ### Numbers -/

namespace JsNum

/-- The test `x <= 0`: false for `NaN`. -/
def le0 : JsNum → Bool
  | nan => false
  | posInf => false
  | negInf => true
  | fin q => decide (q ≤ 0)

/-- The set of numbers that are falsy: `NaN` and zero. -/
def isFalsy : JsNum → Bool
  | nan => true
  | fin q => decide (q = 0)
  | _ => false

/-- Multiplication of an infinity of sign `pos` by a finite `q`. -/
def infTimes (pos : Bool) (q : ℚ) : JsNum :=
  if q = 0 then nan
  else if (decide (0 < q)) = pos then posInf else negInf

/-- The operator `*` on numbers: the exact product, rounded. -/
def mul : JsNum → JsNum → JsNum
  | nan, _ => nan
  | _, nan => nan
  | fin a, fin b => roundToDouble (a * b)
  | posInf, posInf => posInf
  | negInf, negInf => posInf
  | posInf, negInf => negInf
  | negInf, posInf => negInf
  | posInf, fin b => infTimes true b
  | negInf, fin b => infTimes false b
  | fin a, posInf => infTimes true a
  | fin a, negInf => infTimes false a

end JsNum

/-! ### `StringToNumber` -/

/-- Code points of `StrWhiteSpaceChar` (white space and line terminators). -/
def isStrWhiteSpaceChar (c : Char) : Bool :=
  let n := c.toNat
  n = 0x09 || n = 0x0A || n = 0x0B || n = 0x0C || n = 0x0D || n = 0x20 ||
  n = 0xA0 || n = 0x1680 || (0x2000 ≤ n && n ≤ 0x200A) || n = 0x2028 ||
  n = 0x2029 || n = 0x202F || n = 0x205F || n = 0x3000 || n = 0xFEFF

/-- Removes leading and trailing `StrWhiteSpaceChar`s. -/
def trimWhiteSpace (cs : List Char) : List Char :=
  ((cs.dropWhile isStrWhiteSpaceChar).reverse.dropWhile isStrWhiteSpaceChar).reverse

/-- Value of a digit in the given radix, if it is one. -/
def digitValue (radix : Nat) (c : Char) : Option Nat :=
  let n := c.toNat
  let v : Option Nat :=
    if 48 ≤ n ∧ n ≤ 57 then some (n - 48)
    else if 97 ≤ n ∧ n ≤ 102 then some (n - 87)
    else if 65 ≤ n ∧ n ≤ 70 then some (n - 55)
    else none
  match v with
  | some d => if d < radix then some d else none
  | none => none

/-- Reads the longest prefix of digits: its value (continuing from `acc`), the
number of digits read, and the rest of the input. -/
def readDigits (radix : Nat) (acc : Nat) : List Char → Nat × Nat × List Char
  | [] => (acc, 0, [])
  | c :: cs =>
    match digitValue radix c with
    | some d =>
      let r := readDigits radix (acc * radix + d) cs
      (r.1, r.2.1 + 1, r.2.2)
    | none => (acc, 0, c :: cs)

/-- What a string denotes as a numeric literal, before it is made a number. -/
inductive NumericLiteral where
  | invalid
  | infinity (negative : Bool)
  | decimal (negative : Bool) (mantissa : Nat) (exponent : Int)
  deriving DecidableEq

/-- A `NonDecimalIntegerLiteral` body: one or more digits and nothing else. -/
def readRadixLiteral (radix : Nat) (cs : List Char) : NumericLiteral :=
  let r := readDigits radix 0 cs
  if r.2.1 = 0 then NumericLiteral.invalid
  else match r.2.2 with
    | [] => NumericLiteral.decimal false r.1 0
    | _ :: _ => NumericLiteral.invalid

/-- The optional `ExponentPart` followed by the end of the input: the exponent,
or `none` when the input is not of that form. -/
def readExponent : List Char → Option Int
  | [] => some 0
  | c :: cs =>
    if c = 'e' ∨ c = 'E' then
      let signed : Bool × List Char :=
        match cs with
        | '+' :: rest => (false, rest)
        | '-' :: rest => (true, rest)
        | _ => (false, cs)
      let r := readDigits 10 0 signed.2
      if r.2.1 = 0 then none
      else match r.2.2 with
        | [] => some (if signed.1 then - (r.1 : Int) else (r.1 : Int))
        | _ :: _ => none
    else none

/-- A `StrUnsignedDecimalLiteral`: `Infinity`, or digits with an optional
fraction (at least one digit in all) and an optional exponent. -/
def readUnsigned (negative : Bool) (cs : List Char) : NumericLiteral :=
  if cs = "Infinity".toList then NumericLiteral.infinity negative
  else
    let ip := readDigits 10 0 cs
    let fp : Nat × Nat × List Char :=
      match ip.2.2 with
      | '.' :: rest => readDigits 10 ip.1 rest
      | other => (ip.1, 0, other)
    if ip.2.1 + fp.2.1 = 0 then NumericLiteral.invalid
    else match readExponent fp.2.2 with
      | some e => NumericLiteral.decimal negative fp.1 (e - (fp.2.1 : Int))
      | none => NumericLiteral.invalid

/-- The grammar `StringNumericLiteral`: optional white space around nothing
(which denotes 0), a signed decimal literal, or an unsigned literal in radix
16, 8 or 2. -/
def readNumericLiteral (s : String) : NumericLiteral :=
  match trimWhiteSpace s.toList with
  | [] => NumericLiteral.decimal false 0 0
  | '0' :: 'x' :: rest => readRadixLiteral 16 rest
  | '0' :: 'X' :: rest => readRadixLiteral 16 rest
  | '0' :: 'o' :: rest => readRadixLiteral 8 rest
  | '0' :: 'O' :: rest => readRadixLiteral 8 rest
  | '0' :: 'b' :: rest => readRadixLiteral 2 rest
  | '0' :: 'B' :: rest => readRadixLiteral 2 rest
  | '+' :: rest => readUnsigned false rest
  | '-' :: rest => readUnsigned true rest
  | cs => readUnsigned false cs

/-- The rational `m * 10 ^ e`. -/
def scale10 (m : Nat) (e : Int) : ℚ :=
  (m : ℚ) * (10 : ℚ) ^ e

/-- The number a literal denotes, i.e. the double nearest to its mathematical
value; what is not a literal denotes `NaN`. -/
def NumericLiteral.value : NumericLiteral → JsNum
  | NumericLiteral.invalid => JsNum.nan
  | NumericLiteral.infinity negative => if negative then JsNum.negInf else JsNum.posInf
  | NumericLiteral.decimal negative m e =>
    roundToDouble (if negative then - scale10 m e else scale10 m e)

/-- The abstract operation `StringToNumber`. -/
def StringToNumber (s : String) : JsNum :=
  (readNumericLiteral s).value

/-! ### Conversions -/

/-- An error as a `catch` block sees it: its `message` and `name` properties. -/
structure JsError where
  message : JsVal
  name : JsVal

/-- The parts of the JavaScript runtime that the handlers use and the embedding
takes as given. -/
structure Runtime where
  /-- The hex digest `crypto.createHmac('sha256', key).update(msg).digest('hex')`. -/
  hmacSha256Hex : String → String → String
  /-- The string form of a number (`Number::toString`). -/
  numberToString : JsNum → String
  /-- The `TypeError` thrown when an object has no primitive value. -/
  toPrimitiveError : JsError
  /-- The `TypeError` thrown when a property of `undefined` or `null` is read. -/
  propertyReadError : JsVal → String → JsError

/-- Whether an object has an own property `key`. -/
def hasKey (fields : List (String × JsVal)) (key : String) : Bool :=
  match fields with
  | [] => false
  | (k, _) :: rest => if k = key then true else hasKey rest key

/-- `ToBoolean`: the values that are truthy. -/
def truthy : JsVal → Bool
  | JsVal.undefined => false
  | JsVal.null => false
  | JsVal.bool b => b
  | JsVal.num n => !n.isFalsy
  | JsVal.str s => decide (s ≠ "")
  | JsVal.arr _ => true
  | JsVal.obj _ => true

mutual
/-- `ToString`; `none` when the conversion throws a `TypeError`.  An object
parsed from JSON inherits `Object.prototype.toString`, which gives
`"[object Object]"`, unless it has an own property `toString`: that property
is data, not a function, and then the object has no primitive value
(`valueOf` never gives one: the inherited one returns the object, an own one
is not callable).  An array is joined by commas. -/
def jsToString (rt : Runtime) : JsVal → Option String
  | JsVal.undefined => some "undefined"
  | JsVal.null => some "null"
  | JsVal.bool b => some (if b then "true" else "false")
  | JsVal.num n => some (rt.numberToString n)
  | JsVal.str s => some s
  | JsVal.arr xs => joinElements rt xs
  | JsVal.obj fields => if hasKey fields "toString" then none else some "[object Object]"
/-- `Array.prototype.join(",")`. -/
def joinElements (rt : Runtime) : List JsVal → Option String
  | [] => some ""
  | [x] => elementToString rt x
  | x :: y :: rest =>
    match elementToString rt x, joinElements rt (y :: rest) with
    | some a, some b => some (a ++ "," ++ b)
    | _, _ => none
/-- The string an array element contributes to `join`: empty for `undefined`
and `null`. -/
def elementToString (rt : Runtime) : JsVal → Option String
  | JsVal.undefined => some ""
  | JsVal.null => some ""
  | JsVal.bool b => some (if b then "true" else "false")
  | JsVal.num n => some (rt.numberToString n)
  | JsVal.str s => some s
  | JsVal.arr xs => joinElements rt xs
  | JsVal.obj fields => if hasKey fields "toString" then none else some "[object Object]"
end

/-- `ToNumber`, i.e. `Number(v)`; `none` when the conversion throws. -/
def Number (rt : Runtime) : JsVal → Option JsNum
  | JsVal.undefined => some JsNum.nan
  | JsVal.null => some (JsNum.fin 0)
  | JsVal.bool b => some (if b then JsNum.fin 1 else JsNum.fin 0)
  | JsVal.num n => some n
  | JsVal.str s => some (StringToNumber s)
  | v => (jsToString rt v).map StringToNumber

/-- `Boolean(v)`. -/
def Boolean (v : JsVal) : Bool := truthy v

/-- The operator `a || b`. -/
def jsOr (a b : JsVal) : JsVal := if truthy a then a else b

/-- The comparison `expected === v` for a string `expected`: `v` is that very
string. -/
def strictEqString (expected : String) : JsVal → Bool
  | JsVal.str s => decide (s = expected)
  | _ => false

/-- Reading property `key` of a value (`v.key`): throws on `undefined` and
`null`.  Values other than objects have none of the properties read here. -/
def getProp (rt : Runtime) (v : JsVal) (key : String) : Except JsError JsVal :=
  match v with
  | JsVal.undefined => Except.error (rt.propertyReadError v key)
  | JsVal.null => Except.error (rt.propertyReadError v key)
  | JsVal.obj fields => Except.ok (getField fields key)
  | _ => Except.ok JsVal.undefined

/-! ## The server's collaborators -/

/-- The environment variables the handlers read.  `RAZORPAY_KEY_SECRET` is a
string: the Razorpay client built at start-up (source lines 180-183) and the
HMAC both need one. -/
structure Env where
  RAZORPAY_KEY_SECRET : String
  RAZORPAY_PLAN_ID : Option String
  RAZORPAY_SUBSCRIPTION_CYCLES : Option String

/-- Truthiness of `process.env.X`: set, and not the empty string. -/
def envSet : Option String → Bool
  | some s => decide (s ≠ "")
  | none => false

/-- The `options` of `razorpay.orders.create` (source lines 205-209). -/
structure OrderOptions where
  amount : JsNum
  currency : String
  receipt : String

/-- The `subscriptionOptions` of `razorpay.subscriptions.create` (source lines
246-254). -/
structure SubscriptionOptions where
  plan_id : String
  customer_notify : Nat
  total_count : JsVal

/-- The Razorpay client: each call resolves to a value or rejects. -/
structure Gateway where
  ordersCreate : OrderOptions → Except JsError JsVal
  subscriptionsCreate : SubscriptionOptions → Except JsError JsVal

/-- The argument of `new Donation({...})` in `/save-payment` (source lines
342-355); an `undefined` property is `none`. -/
structure Donation where
  name : String
  email : String
  contact : String
  address : String
  pincode : String
  amount : JsNum
  isRecurring : Bool
  orderId : Option String
  subscriptionId : Option String
  paymentId : String
  status : String
  message : String

/-- The Mongoose connection and model over a store state `σ`: the connection's
`readyState`, and `donation.save()`, which yields the saved document's `_id` or
throws, and the store state after it. -/
structure Database (σ : Type) where
  readyState : σ → Nat
  save : Donation → σ → Except JsError JsVal × σ

/-- A call a handler makes to one of its collaborators. -/
inductive Call where
  | hmac (key : String) (message : String)
  | readyState
  | save (donation : Donation)
  | ordersCreate (options : OrderOptions)
  | subscriptionsCreate (options : SubscriptionOptions)

/-- An HTTP response: `res.status(status).json(body)`. -/
structure Response where
  status : Nat
  body : JsVal

/-- What a handler without store access does: its response and its calls. -/
structure Reply where
  response : Response
  calls : List Call

/-- What `/save-payment` does: its response, the store after it, its calls. -/
structure SaveReply (σ : Type) where
  response : Response
  store : σ
  calls : List Call

/-! ## `POST /create-order` (source lines 192-231) -/

/-- The `catch` block of `/create-order` and `/create-subscription`. -/
def gatewayCatch (err : JsError) : Response :=
  ⟨500, JsVal.obj [("success", JsVal.bool false), ("error", err.message)]⟩

/-- What `/create-order` answers once `razorpay.orders.create` has settled
(source lines 212-230). -/
def orderResponse (result : Except JsError JsVal) : Response :=
  match result with
  | Except.error err => gatewayCatch err
  | Except.ok order =>
    if !truthy order then
      ⟨500, JsVal.obj [("error", JsVal.str "Razorpay order creation failed")]⟩
    else
      ⟨200, order⟩

/-- The handler of `POST /create-order`; `now` is `Date.now()`. -/
def createOrder (rt : Runtime) (gw : Gateway) (now : Nat) (body : Body) : Reply :=
  let amount := getField body "amount"
  if !truthy amount then
    ⟨⟨400, JsVal.obj [("error", JsVal.str "Invalid amount")]⟩, []⟩
  else
    match Number rt amount with
    | none => ⟨gatewayCatch rt.toPrimitiveError, []⟩
    | some n =>
      if n.le0 then
        ⟨⟨400, JsVal.obj [("error", JsVal.str "Invalid amount")]⟩, []⟩
      else
        let amountInPaise := n.mul (JsNum.fin 10)
        let options : OrderOptions :=
          { amount := amountInPaise
            currency := "INR"
            receipt := "receipt_donation_" ++ toString now }
        ⟨orderResponse (gw.ordersCreate options), [Call.ordersCreate options]⟩

/-! ## `POST /create-subscription` (source lines 235-267) -/

/-- The constant `totalCountFromBody` (source line 251). -/
def totalCountFromBody (rt : Runtime) (body : Body) : Option JsVal :=
  match getField body "total_count" with
  | JsVal.undefined => some JsVal.undefined
  | v => (Number rt v).map JsVal.num

/-- The constant `totalCountFromEnv` (source line 252). -/
def totalCountFromEnv (env : Env) : JsVal :=
  match env.RAZORPAY_SUBSCRIPTION_CYCLES with
  | some s => if s ≠ "" then JsVal.num (StringToNumber s) else JsVal.undefined
  | none => JsVal.undefined

/-- The constant `totalCount` (source line 253), given `totalCountFromBody`. -/
def totalCount (fromBody : JsVal) (env : Env) : JsVal :=
  jsOr (jsOr fromBody (totalCountFromEnv env)) (JsVal.num (JsNum.fin 12))

/-- What `/create-subscription` answers once `razorpay.subscriptions.create`
has settled (source lines 259-266). -/
def subscriptionResponse (rt : Runtime) (result : Except JsError JsVal) : Response :=
  match result with
  | Except.error err => gatewayCatch err
  | Except.ok subscription =>
    match getProp rt subscription "id" with
    | Except.error err => gatewayCatch err
    | Except.ok id =>
      ⟨200, JsVal.obj [("success", JsVal.bool true), ("subscriptionId", id),
        ("subscription", subscription)]⟩

/-- The handler of `POST /create-subscription`. -/
def createSubscription (rt : Runtime) (gw : Gateway) (env : Env) (body : Body) : Reply :=
  if !envSet env.RAZORPAY_PLAN_ID then
    ⟨⟨500, JsVal.obj [("error", JsVal.str "Plan ID not configured on server")]⟩, []⟩
  else
    match totalCountFromBody rt body with
    | none => ⟨gatewayCatch rt.toPrimitiveError, []⟩
    | some fromBody =>
      let subscriptionOptions : SubscriptionOptions :=
        { plan_id := env.RAZORPAY_PLAN_ID.getD ""
          customer_notify := 1
          total_count := totalCount fromBody env }
      ⟨subscriptionResponse rt (gw.subscriptionsCreate subscriptionOptions),
        [Call.subscriptionsCreate subscriptionOptions]⟩

/-! ## `POST /save-payment` (source lines 273-377) -/

/-- The `catch` block of `/save-payment` (source lines 368-376). -/
def saveCatch (err : JsError) : Response :=
  ⟨500, JsVal.obj [("success", JsVal.bool false), ("error", err.message),
    ("details", err.name)]⟩

/-- A 400 response with an `error` message. -/
def badRequest (message : String) : Response :=
  ⟨400, JsVal.obj [("error", JsVal.str message)]⟩

/-- The expression `a + "|" + b`: both operands are converted to strings, and
the conversion of an object may throw. -/
def joinWithBar (rt : Runtime) (a b : JsVal) : Option String :=
  match jsToString rt a, jsToString rt b with
  | some x, some y => some (x ++ "|" ++ y)
  | _, _ => none

/-- The variable `body_text` (source lines 294-313): the message that was
signed.  `Except.error` is the response of an early return; `Except.ok none`
stands for a `TypeError` thrown by the string concatenation. -/
def body_text (rt : Runtime) (body : Body) : Except Response (Option String) :=
  let paymentId := getField body "paymentId"
  let orderId := getField body "orderId"
  let subscriptionId := getField body "subscriptionId"
  let isRecurring := getField body "isRecurring"
  if truthy isRecurring then
    if !truthy subscriptionId then
      Except.error (badRequest "Missing subscriptionId for recurring payment")
    else
      Except.ok (joinWithBar rt paymentId subscriptionId)
  else
    if !truthy orderId then
      Except.error (badRequest "Missing orderId for one-time payment")
    else
      Except.ok (joinWithBar rt orderId paymentId)

/-- The expression `String(v || '')`. -/
def stringOrEmpty (rt : Runtime) (v : JsVal) : Option String :=
  jsToString rt (jsOr v (JsVal.str ""))

/-- The record built by `new Donation({...})` (source lines 342-355); `none`
when one of the conversions throws. -/
def buildDonation (rt : Runtime) (body : Body) : Option Donation :=
  let isRecurring := getField body "isRecurring"
  match stringOrEmpty rt (getField body "name"),
        stringOrEmpty rt (getField body "email"),
        stringOrEmpty rt (getField body "contact"),
        stringOrEmpty rt (getField body "address"),
        stringOrEmpty rt (getField body "pincode"),
        Number rt (getField body "amount") with
  | some name, some email, some contact, some address, some pincode, some amount =>
    let orderId : Option (Option String) :=
      if truthy isRecurring then some none
      else (jsToString rt (getField body "orderId")).map some
    let subscriptionId : Option (Option String) :=
      if truthy isRecurring then (jsToString rt (getField body "subscriptionId")).map some
      else some none
    match orderId, subscriptionId, jsToString rt (getField body "paymentId"),
          stringOrEmpty rt (getField body "message") with
    | some orderId, some subscriptionId, some paymentId, some message =>
      some
        { name := name
          email := email
          contact := contact
          address := address
          pincode := pincode
          amount := amount
          isRecurring := Boolean isRecurring
          orderId := orderId
          subscriptionId := subscriptionId
          paymentId := paymentId
          status := "completed"
          message := message }
    | _, _, _, _ => none
  | _, _, _, _, _, _ => none

/-- Part 1 of the handler, "VERIFY SIGNATURE" (source lines 288-329): the
response of the early return it takes, or `none` when the signature is verified
(line 329 is reached), and the calls made. -/
def verifySignature (rt : Runtime) (env : Env) (body : Body) : Option Response × List Call :=
  let paymentId := getField body "paymentId"
  let signature := getField body "signature"
  if !truthy paymentId || !truthy signature then
    (some (badRequest "Payment verification failed: Missing required fields"), [])
  else
    match body_text rt body with
    | Except.error response => (some response, [])
    | Except.ok none => (some (saveCatch rt.toPrimitiveError), [])
    | Except.ok (some text) =>
      let expectedSignature := rt.hmacSha256Hex env.RAZORPAY_KEY_SECRET text
      if !strictEqString expectedSignature signature then
        (some (badRequest "Invalid payment signature"), [Call.hmac env.RAZORPAY_KEY_SECRET text])
      else
        (none, [Call.hmac env.RAZORPAY_KEY_SECRET text])

/-- The 503 response of `/save-payment` (source lines 334-338). -/
def databaseNotAvailable : Response :=
  ⟨503, JsVal.obj [("success", JsVal.bool false),
    ("error", JsVal.str "Database not available"),
    ("message", JsVal.str "Payment verified but database not available for saving")]⟩

/-- What `/save-payment` answers once `donation.save()` has settled (source
lines 358-376). -/
def saveResponse (body : Body) (result : Except JsError JsVal) : Response :=
  match result with
  | Except.error err => saveCatch err
  | Except.ok id =>
    ⟨200, JsVal.obj [("success", JsVal.bool true),
      ("message", JsVal.str "Donation verified and saved successfully"),
      ("donationId", id), ("paymentId", getField body "paymentId")]⟩

/-- The handler of `POST /save-payment`: part 1, then part 2, "SAVE TO
DATABASE" (source lines 331-366). -/
def savePayment {σ : Type} (rt : Runtime) (db : Database σ) (env : Env) (body : Body)
    (store : σ) : SaveReply σ :=
  match verifySignature rt env body with
  | (some response, calls) => ⟨response, store, calls⟩
  | (none, calls) =>
    if db.readyState store ≠ 1 then
      ⟨databaseNotAvailable, store, calls ++ [Call.readyState]⟩
    else
      match buildDonation rt body with
      | none => ⟨saveCatch rt.toPrimitiveError, store, calls ++ [Call.readyState]⟩
      | some donation =>
        let saved := db.save donation store
        ⟨saveResponse body saved.1, saved.2, calls ++ [Call.readyState, Call.save donation]⟩

/-! ## Sample collaborators, for evaluating the handlers at concrete requests -/

/-- A runtime for the examples.  Its digest is a stand-in for HMAC-SHA256 (the
theorems hold for every digest function); numbers are printed only as far as
the examples need (integers). -/
def sampleRuntime : Runtime where
  hmacSha256Hex := fun key msg => "hmac:" ++ key ++ ":" ++ msg
  numberToString := fun n =>
    match n with
    | JsNum.nan => "NaN"
    | JsNum.posInf => "Infinity"
    | JsNum.negInf => "-Infinity"
    | JsNum.fin q => toString q.num
  toPrimitiveError :=
    ⟨JsVal.str "Cannot convert object to primitive value", JsVal.str "TypeError"⟩
  propertyReadError := fun _ _ =>
    ⟨JsVal.str "Cannot read properties of undefined", JsVal.str "TypeError"⟩

/-- A store for the examples: the connection state and the saved records. -/
structure SampleStore where
  readyState : Nat
  donations : List Donation

/-- A database for the examples: `save` appends the record and returns its
position as `_id`. -/
def sampleDatabase : Database SampleStore where
  readyState := fun s => s.readyState
  save := fun d s =>
    (Except.ok (JsVal.num (JsNum.fin (s.donations.length : ℚ))),
      { s with donations := s.donations ++ [d] })

/-- A gateway for the examples: every call succeeds with an object that has
an `id` and repeats what it was sent. -/
def sampleGateway : Gateway where
  ordersCreate := fun o =>
    Except.ok (JsVal.obj [("id", JsVal.str "order_1"), ("amount", JsVal.num o.amount),
      ("currency", JsVal.str o.currency)])
  subscriptionsCreate := fun o =>
    Except.ok (JsVal.obj [("id", JsVal.str "sub_1"), ("plan_id", JsVal.str o.plan_id),
      ("total_count", o.total_count)])

/-- An environment for the examples: secret `"s"`, a plan, no cycle count. -/
def sampleEnv : Env where
  RAZORPAY_KEY_SECRET := "s"
  RAZORPAY_PLAN_ID := some "plan_1"
  RAZORPAY_SUBSCRIPTION_CYCLES := none

/-- The spec's example request: one-time, `order_1`, `pay_1`, with the given
signature. -/
def oneTimeRequest (signature : String) : Body :=
  [("paymentId", JsVal.str "pay_1"), ("orderId", JsVal.str "order_1"),
   ("signature", JsVal.str signature), ("isRecurring", JsVal.bool false),
   ("amount", JsVal.num (JsNum.fin 500)), ("name", JsVal.str "A")]

/-- A recurring request: `pay_1`, `sub_1`, with the given signature. -/
def recurringRequest (signature : String) : Body :=
  [("paymentId", JsVal.str "pay_1"), ("subscriptionId", JsVal.str "sub_1"),
   ("signature", JsVal.str signature), ("isRecurring", JsVal.bool true),
   ("amount", JsVal.num (JsNum.fin 500))]

/-! ## The specification's vocabulary -/

/-- The canonical message of section 4.2, step 1, in the spec's words: for a
recurring payment `paymentId + "|" + subscriptionId`, for a one-time payment
`orderId + "|" + paymentId`; `none` when a value has no string form. -/
def canonicalMessage (rt : Runtime) (body : Body) : Option String :=
  if truthy (getField body "isRecurring") then
    joinWithBar rt (getField body "paymentId") (getField body "subscriptionId")
  else
    joinWithBar rt (getField body "orderId") (getField body "paymentId")

/-- The preconditions of section 4.2 fail: `paymentId` or `signature` is not
there, or the identifier that `isRecurring` calls for is not there.  A field
is there when its value is truthy. -/
def requiredFieldMissing (body : Body) : Prop :=
  truthy (getField body "paymentId") = false ∨
  truthy (getField body "signature") = false ∨
  (truthy (getField body "isRecurring") = true ∧
    truthy (getField body "subscriptionId") = false) ∨
  (truthy (getField body "isRecurring") = false ∧
    truthy (getField body "orderId") = false)

/-- The three responses of `/save-payment` that report a missing field (source
lines 291, 300 and 309). -/
def isMissingFieldResponse (r : Response) : Prop :=
  r = badRequest "Payment verification failed: Missing required fields" ∨
  r = badRequest "Missing subscriptionId for recurring payment" ∨
  r = badRequest "Missing orderId for one-time payment"

/-- A field the body has no value for: it is absent, `null`, or the empty
string. -/
def fieldAbsent (v : JsVal) : Prop :=
  v = JsVal.undefined ∨ v = JsVal.null ∨ v = JsVal.str ""

/-- The preconditions of section 4.2 in the spec's own words, with
"`isRecurring` is true" read as the boolean `true`. -/
def invalidInputAsWritten (body : Body) : Prop :=
  fieldAbsent (getField body "paymentId") ∨
  fieldAbsent (getField body "signature") ∨
  (getField body "isRecurring" = JsVal.bool true ∧
    fieldAbsent (getField body "subscriptionId")) ∨
  (getField body "isRecurring" ≠ JsVal.bool true ∧
    fieldAbsent (getField body "orderId"))

/-- A one-time request whose `isRecurring` is the string `"false"`, as a
form-encoded body carries it. -/
def formEncodedRequest : Body :=
  [("paymentId", JsVal.str "pay_1"), ("orderId", JsVal.str "order_1"),
   ("signature", JsVal.str "hmac:s:order_1|pay_1"), ("isRecurring", JsVal.str "false")]

/-- The values that are not objects or arrays. -/
def isPrimitive : JsVal → Bool
  | JsVal.arr _ => false
  | JsVal.obj _ => false
  | _ => true

/-- The fields of a request that `/save-payment` converts to build the record,
besides the identifiers that were signed. -/
def donationDetailFields : List String :=
  ["name", "email", "contact", "address", "pincode", "amount", "message"]

/-- The reply of `/create-subscription` when the gateway is sent `total_count`:
the one call is `subscriptions.create` with the configured plan,
`customer_notify = 1` and that `total_count`, and the response is the one for
what the gateway returns for these very options. -/
def sendsTotalCount (rt : Runtime) (gw : Gateway) (env : Env) (r : Reply)
    (total_count : JsVal) : Prop :=
  r.calls =
    [Call.subscriptionsCreate
      { plan_id := env.RAZORPAY_PLAN_ID.getD ""
        customer_notify := 1
        total_count := total_count }] ∧
  r.response =
    subscriptionResponse rt
      (gw.subscriptionsCreate
        { plan_id := env.RAZORPAY_PLAN_ID.getD ""
          customer_notify := 1
          total_count := total_count })

/-- An environment whose `RAZORPAY_SUBSCRIPTION_CYCLES` is `"6"`. -/
def sixCyclesEnv : Env where
  RAZORPAY_KEY_SECRET := "s"
  RAZORPAY_PLAN_ID := some "plan_1"
  RAZORPAY_SUBSCRIPTION_CYCLES := some "6"

/-- The amount 2000000000000001: a safe integer whose tenfold is not a
double. -/
def largeAmountRequest : Body :=
  [("amount", JsVal.num (JsNum.fin 2000000000000001))]

/-! ## Lemmas on the conversions -/

theorem strictEqString_iff (expected : String) (v : JsVal) :
    strictEqString expected v = true ↔ v = JsVal.str expected := by
  cases v <;> simp [strictEqString]

theorem truthy_str (s : String) : truthy (JsVal.str s) = true ↔ s ≠ "" := by
  simp [truthy]

theorem joinWithBar_str (rt : Runtime) (a b : String) :
    joinWithBar rt (JsVal.str a) (JsVal.str b) = some (a ++ "|" ++ b) := by
  simp [joinWithBar, jsToString]

/-- Part 1 of the handler in terms of the spec's vocabulary, when no required
field is missing and the canonical message exists. -/
theorem verifySignature_of_message (rt : Runtime) (env : Env) (body : Body) (m : String)
    (hp : truthy (getField body "paymentId") = true)
    (hs : truthy (getField body "signature") = true)
    (hid : if truthy (getField body "isRecurring") then
        truthy (getField body "subscriptionId") = true
      else truthy (getField body "orderId") = true)
    (hm : canonicalMessage rt body = some m) :
    verifySignature rt env body =
      if strictEqString (rt.hmacSha256Hex env.RAZORPAY_KEY_SECRET m) (getField body "signature")
      then (none, [Call.hmac env.RAZORPAY_KEY_SECRET m])
      else (some (badRequest "Invalid payment signature"),
        [Call.hmac env.RAZORPAY_KEY_SECRET m]) := by
  unfold canonicalMessage at hm
  by_cases hr : truthy (getField body "isRecurring") = true
  · simp only [hr, if_true] at hid hm
    simp [verifySignature, body_text, hp, hs, hr, hid, hm]
    split <;> simp_all
  · simp only [hr] at hid hm
    simp only [Bool.not_eq_true] at hr
    simp at hid hm
    simp [verifySignature, body_text, hp, hs, hr, hid, hm]
    split <;> simp_all

/-- The response and calls of part 1 when a required field is missing: one of
the three missing-field responses, and no call at all. -/
theorem verifySignature_of_missing (rt : Runtime) (env : Env) (body : Body)
    (h : requiredFieldMissing body) :
    (verifySignature rt env body =
        (some (badRequest "Payment verification failed: Missing required fields"), []) ∨
      verifySignature rt env body =
        (some (badRequest "Missing subscriptionId for recurring payment"), []) ∨
      verifySignature rt env body =
        (some (badRequest "Missing orderId for one-time payment"), [])) := by
  unfold requiredFieldMissing at h
  by_cases hp : truthy (getField body "paymentId") = true
  · by_cases hs : truthy (getField body "signature") = true
    · by_cases hr : truthy (getField body "isRecurring") = true
      · have hsub : truthy (getField body "subscriptionId") = false := by
          rcases h with h | h | h | h
          · simp [hp] at h
          · simp [hs] at h
          · exact h.2
          · simp [hr] at h
        right; left
        simp [verifySignature, body_text, hp, hs, hr, hsub]
      · simp only [Bool.not_eq_true] at hr
        have ho : truthy (getField body "orderId") = false := by
          rcases h with h | h | h | h
          · simp [hp] at h
          · simp [hs] at h
          · simp [hr] at h
          · exact h.2
        right; right
        simp [verifySignature, body_text, hp, hs, hr, ho]
    · left
      simp only [Bool.not_eq_true] at hs
      simp [verifySignature, hs]
  · left
    simp only [Bool.not_eq_true] at hp
    simp [verifySignature, hp]

/-- When part 1 returns early, the handler answers with that response, leaves
the store alone and makes no further call. -/
theorem savePayment_of_rejected {σ : Type} (rt : Runtime) (db : Database σ) (env : Env)
    (body : Body) (store : σ) (response : Response) (calls : List Call)
    (h : verifySignature rt env body = (some response, calls)) :
    savePayment rt db env body store = ⟨response, store, calls⟩ := by
  simp [savePayment, h]

/-! ## Signature verification -/

/-- C1: for a request whose `paymentId` is a non-empty string and whose
`signature` is there, a one-time request (`isRecurring` false or absent) with a
non-empty `orderId` passes verification exactly when `signature` is the digest
of `orderId + "|" + paymentId`, a recurring request with a non-empty
`subscriptionId` exactly when it is the digest of
`paymentId + "|" + subscriptionId`; with any other signature the handler
answers 400 'Invalid payment signature' and leaves the store as it was. -/
theorem savePayment_signature_accepted_iff {σ : Type} (rt : Runtime) (db : Database σ)
    (env : Env) (body : Body) (store : σ) (p : String)
    (hp : getField body "paymentId" = JsVal.str p) (hp0 : p ≠ "")
    (hs : truthy (getField body "signature") = true) :
    (∀ o : String, truthy (getField body "isRecurring") = false →
      getField body "orderId" = JsVal.str o → o ≠ "" →
      (((verifySignature rt env body).1 = none ↔
          getField body "signature" =
            JsVal.str (rt.hmacSha256Hex env.RAZORPAY_KEY_SECRET (o ++ "|" ++ p))) ∧
        (getField body "signature" ≠
            JsVal.str (rt.hmacSha256Hex env.RAZORPAY_KEY_SECRET (o ++ "|" ++ p)) →
          (savePayment rt db env body store).response = badRequest "Invalid payment signature" ∧
          (savePayment rt db env body store).store = store))) ∧
    (∀ sub : String, truthy (getField body "isRecurring") = true →
      getField body "subscriptionId" = JsVal.str sub → sub ≠ "" →
      (((verifySignature rt env body).1 = none ↔
          getField body "signature" =
            JsVal.str (rt.hmacSha256Hex env.RAZORPAY_KEY_SECRET (p ++ "|" ++ sub))) ∧
        (getField body "signature" ≠
            JsVal.str (rt.hmacSha256Hex env.RAZORPAY_KEY_SECRET (p ++ "|" ++ sub)) →
          (savePayment rt db env body store).response = badRequest "Invalid payment signature" ∧
          (savePayment rt db env body store).store = store))) := by
  have hpt : truthy (getField body "paymentId") = true := by
    rw [hp]; exact (truthy_str p).2 hp0
  constructor
  · intro o hr ho ho0
    have hot : truthy (getField body "orderId") = true := by
      rw [ho]; exact (truthy_str o).2 ho0
    have hm : canonicalMessage rt body = some (o ++ "|" ++ p) := by
      simp [canonicalMessage, hr, ho, hp, joinWithBar_str]
    have hv := verifySignature_of_message rt env body _ hpt hs (by simp [hr, hot]) hm
    constructor
    · rw [hv, ← strictEqString_iff]
      split <;> simp_all
    · intro hne
      have hne2 : strictEqString (rt.hmacSha256Hex env.RAZORPAY_KEY_SECRET (o ++ "|" ++ p))
          (getField body "signature") = false := by
        rw [← Bool.not_eq_true, strictEqString_iff]; exact hne
      rw [hne2] at hv
      simp [savePayment_of_rejected rt db env body store _ _ hv]
  · intro sub hr hsub hsub0
    have hst : truthy (getField body "subscriptionId") = true := by
      rw [hsub]; exact (truthy_str sub).2 hsub0
    have hm : canonicalMessage rt body = some (p ++ "|" ++ sub) := by
      simp [canonicalMessage, hr, hsub, hp, joinWithBar_str]
    have hv := verifySignature_of_message rt env body _ hpt hs (by simp [hr, hst]) hm
    constructor
    · rw [hv, ← strictEqString_iff]
      split <;> simp_all
    · intro hne
      have hne2 : strictEqString (rt.hmacSha256Hex env.RAZORPAY_KEY_SECRET (p ++ "|" ++ sub))
          (getField body "signature") = false := by
        rw [← Bool.not_eq_true, strictEqString_iff]; exact hne
      rw [hne2] at hv
      simp [savePayment_of_rejected rt db env body store _ _ hv]

/-- The spec's example: one-time, `order_1`, `pay_1`, secret `"s"`.  The
digest of `"order_1|pay_1"` is accepted; the signature `"forged"` gets the 400
'Invalid payment signature' response. -/
theorem savePayment_signature_accepted_iff_witness :
    (verifySignature sampleRuntime sampleEnv
        (oneTimeRequest (sampleRuntime.hmacSha256Hex "s" "order_1|pay_1"))).1 = none ∧
    (savePayment sampleRuntime sampleDatabase sampleEnv (oneTimeRequest "forged")
        ⟨1, []⟩).response = badRequest "Invalid payment signature" :=
  ⟨((savePayment_signature_accepted_iff sampleRuntime sampleDatabase sampleEnv
        (oneTimeRequest (sampleRuntime.hmacSha256Hex "s" "order_1|pay_1")) ⟨1, []⟩ "pay_1"
        rfl (by decide) rfl).1 "order_1" rfl rfl (by decide)).1.2 rfl,
   (((savePayment_signature_accepted_iff sampleRuntime sampleDatabase sampleEnv
        (oneTimeRequest "forged") ⟨1, []⟩ "pay_1"
        rfl (by decide) rfl).1 "order_1" rfl rfl (by decide)).2
      (by simp [oneTimeRequest, getField, sampleRuntime, sampleEnv])).1⟩

/-- C10: a one-time request with `orderId = a` and `paymentId = b` and a
recurring request with `paymentId = a` and `subscriptionId = b` are signed over
the same message `a + "|" + b`, so with the same signature and secret one
passes verification exactly when the other does. -/
theorem verifySignature_cross_mode (rt : Runtime) (env : Env) (oneTime recurring : Body)
    (a b : String) (ha : a ≠ "") (hb : b ≠ "")
    (h1r : truthy (getField oneTime "isRecurring") = false)
    (h1o : getField oneTime "orderId" = JsVal.str a)
    (h1p : getField oneTime "paymentId" = JsVal.str b)
    (h2r : truthy (getField recurring "isRecurring") = true)
    (h2p : getField recurring "paymentId" = JsVal.str a)
    (h2s : getField recurring "subscriptionId" = JsVal.str b)
    (hsig : getField oneTime "signature" = getField recurring "signature") :
    canonicalMessage rt oneTime = some (a ++ "|" ++ b) ∧
    canonicalMessage rt recurring = some (a ++ "|" ++ b) ∧
    body_text rt oneTime = Except.ok (some (a ++ "|" ++ b)) ∧
    body_text rt recurring = Except.ok (some (a ++ "|" ++ b)) ∧
    verifySignature rt env oneTime = verifySignature rt env recurring ∧
    ((verifySignature rt env oneTime).1 = none ↔ (verifySignature rt env recurring).1 = none) := by
  have hat := (truthy_str a).2 ha
  have hbt := (truthy_str b).2 hb
  have hm1 : canonicalMessage rt oneTime = some (a ++ "|" ++ b) := by
    simp [canonicalMessage, h1r, h1o, h1p, joinWithBar_str]
  have hm2 : canonicalMessage rt recurring = some (a ++ "|" ++ b) := by
    simp [canonicalMessage, h2r, h2p, h2s, joinWithBar_str]
  have hb1 : body_text rt oneTime = Except.ok (some (a ++ "|" ++ b)) := by
    simp [body_text, h1r, h1o, h1p, hat, joinWithBar_str]
  have hb2 : body_text rt recurring = Except.ok (some (a ++ "|" ++ b)) := by
    simp [body_text, h2r, h2p, h2s, hbt, joinWithBar_str]
  have hv : verifySignature rt env oneTime = verifySignature rt env recurring := by
    simp [verifySignature, hb1, hb2, h1p, h2p, hat, hbt, hsig]
  exact ⟨hm1, hm2, hb1, hb2, hv, by rw [hv]⟩

/-- The message `"order_1|pay_1"` read both ways: as the one-time payment
`pay_1` of order `order_1`, and as the recurring payment `order_1` of
subscription `pay_1`; the same signature verifies both. -/
theorem verifySignature_cross_mode_witness :
    (verifySignature sampleRuntime sampleEnv (oneTimeRequest "hmac:s:order_1|pay_1")).1 = none ∧
    (verifySignature sampleRuntime sampleEnv
      [("paymentId", JsVal.str "order_1"), ("subscriptionId", JsVal.str "pay_1"),
       ("signature", JsVal.str "hmac:s:order_1|pay_1"), ("isRecurring", JsVal.bool true)]).1
      = none :=
  have h := verifySignature_cross_mode sampleRuntime sampleEnv
    (oneTimeRequest "hmac:s:order_1|pay_1")
    [("paymentId", JsVal.str "order_1"), ("subscriptionId", JsVal.str "pay_1"),
     ("signature", JsVal.str "hmac:s:order_1|pay_1"), ("isRecurring", JsVal.bool true)]
    "order_1" "pay_1" (by decide) (by decide) rfl rfl rfl rfl rfl rfl rfl
  ⟨rfl, h.2.2.2.2.2.1 rfl⟩

/-! ## Preconditions and persistence -/

theorem verifySignature_of_no_message (rt : Runtime) (env : Env) (body : Body)
    (hp : truthy (getField body "paymentId") = true)
    (hs : truthy (getField body "signature") = true)
    (hid : if truthy (getField body "isRecurring") then
        truthy (getField body "subscriptionId") = true
      else truthy (getField body "orderId") = true)
    (hm : canonicalMessage rt body = none) :
    verifySignature rt env body = (some (saveCatch rt.toPrimitiveError), []) := by
  unfold canonicalMessage at hm
  by_cases hr : truthy (getField body "isRecurring") = true
  · simp only [hr, if_true] at hid hm
    simp [verifySignature, body_text, hp, hs, hr, hid, hm]
  · simp only [Bool.not_eq_true] at hr
    simp [hr] at hid hm
    simp [verifySignature, body_text, hp, hs, hr, hid, hm]

/-- Without a missing field, every required field is there. -/
theorem present_of_not_missing (body : Body) (h : ¬ requiredFieldMissing body) :
    truthy (getField body "paymentId") = true ∧
    truthy (getField body "signature") = true ∧
    (if truthy (getField body "isRecurring") then
        truthy (getField body "subscriptionId") = true
      else truthy (getField body "orderId") = true) := by
  unfold requiredFieldMissing at h
  push_neg at h
  obtain ⟨h1, h2, h3, h4⟩ := h
  refine ⟨by simpa using h1, by simpa using h2, ?_⟩
  by_cases hr : truthy (getField body "isRecurring") = true
  · simpa [hr] using h3 hr
  · simp only [Bool.not_eq_true] at hr
    simpa [hr] using h4 hr

/-- What it means for part 1 to pass: nothing is missing, the canonical
message exists, the signature is its digest, and the digest was computed. -/
theorem verifySignature_passed (rt : Runtime) (env : Env) (body : Body)
    (h : (verifySignature rt env body).1 = none) :
    ¬ requiredFieldMissing body ∧
    ∃ m, canonicalMessage rt body = some m ∧
      getField body "signature" = JsVal.str (rt.hmacSha256Hex env.RAZORPAY_KEY_SECRET m) ∧
      verifySignature rt env body = (none, [Call.hmac env.RAZORPAY_KEY_SECRET m]) := by
  by_cases hmiss : requiredFieldMissing body
  · rcases verifySignature_of_missing rt env body hmiss with e | e | e <;> simp [e] at h
  · refine ⟨hmiss, ?_⟩
    obtain ⟨hp, hs, hid⟩ := present_of_not_missing body hmiss
    cases hm : canonicalMessage rt body with
    | none => simp [verifySignature_of_no_message rt env body hp hs hid hm] at h
    | some m =>
      have hv := verifySignature_of_message rt env body m hp hs hid hm
      refine ⟨m, rfl, ?_⟩
      by_cases hq : strictEqString (rt.hmacSha256Hex env.RAZORPAY_KEY_SECRET m)
          (getField body "signature") = true
      · rw [if_pos hq] at hv
        exact ⟨(strictEqString_iff _ _).1 hq, hv⟩
      · rw [if_neg hq] at hv
        simp [hv] at h

/-- The handler after part 1 has passed: 503 with the store untouched when the
connection is not ready, and otherwise 500 or 200. -/
theorem savePayment_of_verified {σ : Type} (rt : Runtime) (db : Database σ) (env : Env)
    (body : Body) (store : σ) (calls : List Call)
    (h : verifySignature rt env body = (none, calls)) :
    (db.readyState store ≠ 1 →
      savePayment rt db env body store = ⟨databaseNotAvailable, store, calls ++ [Call.readyState]⟩) ∧
    (db.readyState store = 1 →
      (savePayment rt db env body store).response.status = 500 ∨
      (savePayment rt db env body store).response.status = 200) := by
  constructor
  · intro hr
    simp [savePayment, h, hr]
  · intro hr
    simp only [savePayment, h, hr]
    split
    · simp at *
    · split
      · left; rfl
      · rename_i donation _
        cases (db.save donation store).1 with
        | error err => left; rfl
        | ok id => right; rfl

theorem isMissingFieldResponse_status (r : Response) (h : isMissingFieldResponse r) :
    r.status = 400 := by
  rcases h with h | h | h <;> rw [h] <;> rfl

theorem not_isMissingFieldResponse_invalidSignature :
    ¬ isMissingFieldResponse (badRequest "Invalid payment signature") := by
  intro h
  rcases h with h | h | h <;> simp [badRequest] at h

/-- C2: when a required field is missing, or the signature is not the digest
of the canonical message, `/save-payment` answers 400, leaves the store as it
was, and neither reads the connection state nor saves a record.  Conversely a
record is saved, or the store changed, only for a request with every required
field whose signature is the digest of its canonical message. -/
theorem savePayment_persists_only_verified {σ : Type} (rt : Runtime) (db : Database σ)
    (env : Env) (body : Body) (store : σ) :
    ((requiredFieldMissing body ∨
        ∃ m, canonicalMessage rt body = some m ∧
          getField body "signature" ≠
            JsVal.str (rt.hmacSha256Hex env.RAZORPAY_KEY_SECRET m)) →
      (savePayment rt db env body store).response.status = 400 ∧
      (savePayment rt db env body store).store = store ∧
      (∀ d, Call.save d ∉ (savePayment rt db env body store).calls) ∧
      Call.readyState ∉ (savePayment rt db env body store).calls) ∧
    (((∃ d, Call.save d ∈ (savePayment rt db env body store).calls) ∨
        (savePayment rt db env body store).store ≠ store) →
      ¬ requiredFieldMissing body ∧
      ∃ m, canonicalMessage rt body = some m ∧
        getField body "signature" =
          JsVal.str (rt.hmacSha256Hex env.RAZORPAY_KEY_SECRET m)) := by
  have key : ∀ response calls, verifySignature rt env body = (some response, calls) →
      (∀ d, Call.save d ∉ calls) → Call.readyState ∉ calls →
      (savePayment rt db env body store).response = response ∧
      (savePayment rt db env body store).store = store ∧
      (∀ d, Call.save d ∉ (savePayment rt db env body store).calls) ∧
      Call.readyState ∉ (savePayment rt db env body store).calls := by
    intro response calls hv h1 h2
    rw [savePayment_of_rejected rt db env body store response calls hv]
    exact ⟨rfl, rfl, h1, h2⟩
  constructor
  · intro h
    by_cases hmiss : requiredFieldMissing body
    · rcases verifySignature_of_missing rt env body hmiss with e | e | e <;>
        · obtain ⟨k1, k2, k3, k4⟩ := key _ _ e (by simp) (by simp)
          exact ⟨by rw [k1]; rfl, k2, k3, k4⟩
    · rcases h with h | ⟨m, hm, hne⟩
      · exact absurd h hmiss
      · obtain ⟨hp, hs, hid⟩ := present_of_not_missing body hmiss
        have hv := verifySignature_of_message rt env body m hp hs hid hm
        have hq : ¬ strictEqString (rt.hmacSha256Hex env.RAZORPAY_KEY_SECRET m)
            (getField body "signature") = true := by
          rw [strictEqString_iff]; exact hne
        rw [if_neg hq] at hv
        obtain ⟨k1, k2, k3, k4⟩ := key _ _ hv (by simp) (by simp)
        exact ⟨by rw [k1]; rfl, k2, k3, k4⟩
  · intro h
    cases hv : verifySignature rt env body with
    | mk fst calls =>
      cases fst with
      | some response =>
        rw [savePayment_of_rejected rt db env body store response calls hv] at h
        by_cases hmiss : requiredFieldMissing body
        · rcases verifySignature_of_missing rt env body hmiss with e | e | e <;>
            · rw [e] at hv
              simp only [Prod.mk.injEq] at hv
              obtain ⟨-, rfl⟩ := hv
              simp at h
        · obtain ⟨hp, hs, hid⟩ := present_of_not_missing body hmiss
          cases hm : canonicalMessage rt body with
          | none =>
            rw [verifySignature_of_no_message rt env body hp hs hid hm] at hv
            simp only [Prod.mk.injEq] at hv
            obtain ⟨-, rfl⟩ := hv
            simp at h
          | some m =>
            have hv2 := verifySignature_of_message rt env body m hp hs hid hm
            by_cases hq : strictEqString (rt.hmacSha256Hex env.RAZORPAY_KEY_SECRET m)
                (getField body "signature") = true
            · rw [if_pos hq, hv] at hv2
              simp at hv2
            · rw [if_neg hq, hv] at hv2
              simp only [Prod.mk.injEq] at hv2
              obtain ⟨-, rfl⟩ := hv2
              simp at h
      | none =>
        have hpass : (verifySignature rt env body).1 = none := by rw [hv]
        obtain ⟨hmiss, m, hm, hsig, -⟩ := verifySignature_passed rt env body hpass
        exact ⟨hmiss, m, hm, hsig⟩

/-- The spec's one-time request with the signature `"forged"`: 400, and the
store, here connected and empty, stays empty. -/
theorem savePayment_persists_only_verified_witness :
    (savePayment sampleRuntime sampleDatabase sampleEnv (oneTimeRequest "forged")
        ⟨1, []⟩).response.status = 400 ∧
    (savePayment sampleRuntime sampleDatabase sampleEnv (oneTimeRequest "forged")
        ⟨1, []⟩).store = ⟨1, []⟩ :=
  have h := (savePayment_persists_only_verified sampleRuntime sampleDatabase sampleEnv
    (oneTimeRequest "forged") ⟨1, []⟩).1
    (Or.inr ⟨"order_1|pay_1", rfl,
      by simp [oneTimeRequest, getField, sampleRuntime, sampleEnv]⟩)
  ⟨h.1, h.2.1⟩

/-- C3, as the code has it: `/save-payment` answers with one of its three
missing-field responses exactly when `paymentId` is falsy, or `signature` is
falsy, or `isRecurring` is truthy and `subscriptionId` is falsy, or
`isRecurring` is falsy and `orderId` is falsy; and then it has made no call (no
digest computed, no store access) and the store is as it was.  The identifier
of the other payment kind plays no part. -/
theorem savePayment_missing_field_iff {σ : Type} (rt : Runtime) (db : Database σ)
    (env : Env) (body : Body) (store : σ) :
    (isMissingFieldResponse (savePayment rt db env body store).response ↔
      requiredFieldMissing body) ∧
    (requiredFieldMissing body →
      (savePayment rt db env body store).response.status = 400 ∧
      (savePayment rt db env body store).calls = [] ∧
      (savePayment rt db env body store).store = store) := by
  have hmissing : requiredFieldMissing body →
      isMissingFieldResponse (savePayment rt db env body store).response ∧
      (savePayment rt db env body store).calls = [] ∧
      (savePayment rt db env body store).store = store := by
    intro hmiss
    rcases verifySignature_of_missing rt env body hmiss with e | e | e <;>
      · rw [savePayment_of_rejected rt db env body store _ _ e]
        refine ⟨?_, rfl, rfl⟩
        simp [isMissingFieldResponse]
  refine ⟨⟨?_, fun h => (hmissing h).1⟩, fun h =>
    ⟨isMissingFieldResponse_status _ (hmissing h).1, (hmissing h).2⟩⟩
  intro hresp
  by_contra hmiss
  obtain ⟨hp, hs, hid⟩ := present_of_not_missing body hmiss
  have hstatus := isMissingFieldResponse_status _ hresp
  cases hm : canonicalMessage rt body with
  | none =>
    rw [savePayment_of_rejected rt db env body store _ _
      (verifySignature_of_no_message rt env body hp hs hid hm)] at hstatus
    simp [saveCatch] at hstatus
  | some m =>
    have hv := verifySignature_of_message rt env body m hp hs hid hm
    by_cases hq : strictEqString (rt.hmacSha256Hex env.RAZORPAY_KEY_SECRET m)
        (getField body "signature") = true
    · rw [if_pos hq] at hv
      obtain ⟨h503, hrest⟩ := savePayment_of_verified rt db env body store _ hv
      by_cases hr : db.readyState store = 1
      · rcases hrest hr with h5 | h2 <;> omega
      · rw [h503 hr] at hstatus
        simp [databaseNotAvailable] at hstatus
    · rw [if_neg hq] at hv
      rw [savePayment_of_rejected rt db env body store _ _ hv] at hresp
      exact not_isMissingFieldResponse_invalidSignature hresp

/-- C3 as written fails at a one-time request whose `isRecurring` is the string
`"false"`: every field the one-time branch needs is a non-empty string and
`isRecurring` is not `true`, yet the handler takes the recurring branch and
answers 400 'Missing subscriptionId for recurring payment'. -/
theorem savePayment_missing_field_as_written_counterexample :
    ¬ (isMissingFieldResponse
        (savePayment sampleRuntime sampleDatabase sampleEnv formEncodedRequest
          ⟨1, []⟩).response ↔
      invalidInputAsWritten formEncodedRequest) := by
  have hresp : (savePayment sampleRuntime sampleDatabase sampleEnv formEncodedRequest
      ⟨1, []⟩).response = badRequest "Missing subscriptionId for recurring payment" := rfl
  have hnot : ¬ invalidInputAsWritten formEncodedRequest := by
    simp [invalidInputAsWritten, fieldAbsent, formEncodedRequest, getField]
  intro h
  exact hnot (h.1 (by rw [hresp]; right; left; rfl))

/-- The request with `isRecurring = "false"` under the code's reading: a
required field is missing (the truthy `isRecurring` calls for `subscriptionId`),
and the handler answers 400 before any call. -/
theorem savePayment_missing_field_iff_witness :
    requiredFieldMissing formEncodedRequest ∧
    (savePayment sampleRuntime sampleDatabase sampleEnv formEncodedRequest
      ⟨1, []⟩).calls = [] :=
  have hmiss : requiredFieldMissing formEncodedRequest :=
    Or.inr (Or.inr (Or.inl ⟨rfl, rfl⟩))
  ⟨hmiss, ((savePayment_missing_field_iff sampleRuntime sampleDatabase sampleEnv
    formEncodedRequest ⟨1, []⟩).2 hmiss).2.1⟩

/-! ## The store-availability check -/

/-- C9: a request that passes part 1 while the connection is not ready
(`readyState` other than 1) gets the 503 response, whose message says that the
payment was verified but not saved; the store is as it was and the only calls
are the digest and the look at the connection state, no `save`.  That response
is not the signature-failure response, and a 503 is only ever sent for a request
that passed part 1, i.e. whose signature is the digest of its canonical
message. -/
theorem savePayment_store_unavailable {σ : Type} (rt : Runtime) (db : Database σ)
    (env : Env) (body : Body) (store : σ) :
    ((verifySignature rt env body).1 = none → db.readyState store ≠ 1 →
      (savePayment rt db env body store).response = databaseNotAvailable ∧
      (savePayment rt db env body store).response.status = 503 ∧
      (savePayment rt db env body store).store = store ∧
      (∀ d, Call.save d ∉ (savePayment rt db env body store).calls) ∧
      (savePayment rt db env body store).response ≠ badRequest "Invalid payment signature" ∧
      getField
        (match (savePayment rt db env body store).response.body with
          | JsVal.obj fields => fields
          | _ => [])
        "message"
        = JsVal.str "Payment verified but database not available for saving") ∧
    ((savePayment rt db env body store).response.status = 503 →
      (verifySignature rt env body).1 = none ∧ db.readyState store ≠ 1 ∧
      ∃ m, canonicalMessage rt body = some m ∧
        getField body "signature" =
          JsVal.str (rt.hmacSha256Hex env.RAZORPAY_KEY_SECRET m)) := by
  constructor
  · intro hpass hr
    obtain ⟨-, m, -, -, hv⟩ := verifySignature_passed rt env body hpass
    rw [(savePayment_of_verified rt db env body store _ hv).1 hr]
    refine ⟨rfl, rfl, rfl, ?_, ?_, rfl⟩
    · intro d; simp
    · simp [databaseNotAvailable, badRequest]
  · intro h503
    cases hv : verifySignature rt env body with
    | mk fst calls =>
      cases fst with
      | some response =>
        rw [savePayment_of_rejected rt db env body store response calls hv] at h503
        exfalso
        by_cases hmiss : requiredFieldMissing body
        · rcases verifySignature_of_missing rt env body hmiss with e | e | e <;>
            · rw [e] at hv
              simp only [Prod.mk.injEq, Option.some.injEq] at hv
              obtain ⟨rfl, -⟩ := hv
              simp [badRequest] at h503
        · obtain ⟨hp, hs, hid⟩ := present_of_not_missing body hmiss
          cases hm : canonicalMessage rt body with
          | none =>
            rw [verifySignature_of_no_message rt env body hp hs hid hm] at hv
            simp only [Prod.mk.injEq, Option.some.injEq] at hv
            obtain ⟨rfl, -⟩ := hv
            simp [saveCatch] at h503
          | some m =>
            have hv2 := verifySignature_of_message rt env body m hp hs hid hm
            by_cases hq : strictEqString (rt.hmacSha256Hex env.RAZORPAY_KEY_SECRET m)
                (getField body "signature") = true
            · rw [if_pos hq, hv] at hv2
              simp at hv2
            · rw [if_neg hq, hv] at hv2
              simp only [Prod.mk.injEq, Option.some.injEq] at hv2
              obtain ⟨rfl, -⟩ := hv2
              simp [badRequest] at h503
      | none =>
        have hpass : (verifySignature rt env body).1 = none := by rw [hv]
        obtain ⟨-, m, hm, hsig, -⟩ := verifySignature_passed rt env body hpass
        refine ⟨rfl, ?_, m, hm, hsig⟩
        intro hr
        rcases (savePayment_of_verified rt db env body store _ hv).2 hr with h5 | h2 <;> omega

/-- The spec's one-time request, correctly signed, while the connection is
down (`readyState` 0): 503, and the empty store stays empty. -/
theorem savePayment_store_unavailable_witness :
    (savePayment sampleRuntime sampleDatabase sampleEnv
        (oneTimeRequest "hmac:s:order_1|pay_1") ⟨0, []⟩).response.status = 503 ∧
    (savePayment sampleRuntime sampleDatabase sampleEnv
        (oneTimeRequest "hmac:s:order_1|pay_1") ⟨0, []⟩).store = ⟨0, []⟩ :=
  have h := (savePayment_store_unavailable sampleRuntime sampleDatabase sampleEnv
    (oneTimeRequest "hmac:s:order_1|pay_1") ⟨0, []⟩).1 rfl (by decide)
  ⟨h.2.1, h.2.2.1⟩

/-! ## The record that is saved -/

theorem jsToString_of_primitive (rt : Runtime) (v : JsVal) (h : isPrimitive v = true) :
    ∃ s, jsToString rt v = some s := by
  cases v <;> simp [isPrimitive, jsToString] at h ⊢

theorem Number_of_primitive (rt : Runtime) (v : JsVal) (h : isPrimitive v = true) :
    ∃ n, Number rt v = some n := by
  cases v <;> simp [isPrimitive, Number] at h ⊢

theorem stringOrEmpty_of_primitive (rt : Runtime) (v : JsVal) (h : isPrimitive v = true) :
    ∃ s, stringOrEmpty rt v = some s := by
  unfold stringOrEmpty jsOr
  split
  · exact jsToString_of_primitive rt v h
  · exact ⟨"", by simp [jsToString]⟩

theorem joinWithBar_some (rt : Runtime) (a b : JsVal) (m : String)
    (h : joinWithBar rt a b = some m) :
    (∃ x, jsToString rt a = some x) ∧ (∃ y, jsToString rt b = some y) := by
  unfold joinWithBar at h
  cases ha : jsToString rt a <;> cases hb : jsToString rt b <;> simp [ha, hb] at h ⊢

/-- The shape of the record `new Donation({...})` builds. -/
theorem buildDonation_shape (rt : Runtime) (body : Body) (d : Donation)
    (h : buildDonation rt body = some d) :
    d.status = "completed" ∧
    jsToString rt (getField body "paymentId") = some d.paymentId ∧
    d.isRecurring = truthy (getField body "isRecurring") ∧
    (truthy (getField body "isRecurring") = true →
      d.orderId = none ∧
      ∃ sub, d.subscriptionId = some sub ∧
        jsToString rt (getField body "subscriptionId") = some sub) ∧
    (truthy (getField body "isRecurring") = false →
      d.subscriptionId = none ∧
      ∃ o, d.orderId = some o ∧ jsToString rt (getField body "orderId") = some o) := by
  unfold buildDonation at h
  split at h
  · by_cases hr : truthy (getField body "isRecurring") = true
    · simp only [hr, if_true] at h
      split at h
      · rename_i e1 e2 e3 e4
        simp only [Option.some.injEq] at h e1
        subst h
        subst e1
        refine ⟨rfl, e3, by simp [Boolean, hr], fun _ => ⟨rfl, ?_⟩, fun hf => by simp [hr] at hf⟩
        simp only [Option.map_eq_some'] at e2
        obtain ⟨sub, hsub, rfl⟩ := e2
        exact ⟨sub, rfl, hsub⟩
      · simp at h
    · simp only [Bool.not_eq_true] at hr
      simp only [hr] at h
      split at h
      · rename_i e1 e2 e3 e4
        simp only [Bool.false_eq_true, if_false, Option.some.injEq] at h e1 e2
        subst h
        subst e2
        refine ⟨rfl, e3, by simp [Boolean, hr], fun ht => by simp [hr] at ht, fun _ => ⟨rfl, ?_⟩⟩
        simp only [Option.map_eq_some'] at e1
        obtain ⟨o, ho, rfl⟩ := e1
        exact ⟨o, rfl, ho⟩
      · simp at h
  · simp at h

/-- The record is built whenever the identifiers have a string form and the
detail fields are primitive values. -/
theorem buildDonation_defined (rt : Runtime) (body : Body) (m : String)
    (hm : canonicalMessage rt body = some m)
    (hprim : ∀ key ∈ donationDetailFields, isPrimitive (getField body key) = true) :
    ∃ d, buildDonation rt body = some d := by
  obtain ⟨name, hname⟩ := stringOrEmpty_of_primitive rt _ (hprim "name" (by simp [donationDetailFields]))
  obtain ⟨email, hemail⟩ := stringOrEmpty_of_primitive rt _ (hprim "email" (by simp [donationDetailFields]))
  obtain ⟨contact, hcontact⟩ := stringOrEmpty_of_primitive rt _ (hprim "contact" (by simp [donationDetailFields]))
  obtain ⟨address, haddress⟩ := stringOrEmpty_of_primitive rt _ (hprim "address" (by simp [donationDetailFields]))
  obtain ⟨pincode, hpincode⟩ := stringOrEmpty_of_primitive rt _ (hprim "pincode" (by simp [donationDetailFields]))
  obtain ⟨message, hmessage⟩ := stringOrEmpty_of_primitive rt _ (hprim "message" (by simp [donationDetailFields]))
  obtain ⟨amount, hamount⟩ := Number_of_primitive rt _ (hprim "amount" (by simp [donationDetailFields]))
  unfold canonicalMessage at hm
  by_cases hr : truthy (getField body "isRecurring") = true
  · simp only [hr, if_true] at hm
    obtain ⟨⟨p, hp⟩, ⟨sub, hsub⟩⟩ := joinWithBar_some rt _ _ m hm
    simp [buildDonation, hname, hemail, hcontact, haddress, hpincode, hmessage, hamount, hr,
      hp, hsub]
  · simp only [Bool.not_eq_true] at hr
    simp only [hr] at hm
    obtain ⟨⟨o, ho⟩, ⟨p, hp⟩⟩ := joinWithBar_some rt _ _ m hm
    simp [buildDonation, hname, hemail, hcontact, haddress, hpincode, hmessage, hamount, hr,
      hp, ho]

/-- The handler after part 1 has passed with the connection ready: the record
built from the request is handed to `save`, whose result decides the response
and whose store is the handler's; when building the record throws, the handler
answers 500 and saves nothing. -/
theorem savePayment_calls_of_verified {σ : Type} (rt : Runtime) (db : Database σ) (env : Env)
    (body : Body) (store : σ) (calls : List Call)
    (h : verifySignature rt env body = (none, calls)) (hr : db.readyState store = 1) :
    (∀ d, buildDonation rt body = some d →
      savePayment rt db env body store =
        ⟨saveResponse body (db.save d store).1, (db.save d store).2,
          calls ++ [Call.readyState, Call.save d]⟩) ∧
    (buildDonation rt body = none →
      savePayment rt db env body store =
        ⟨saveCatch rt.toPrimitiveError, store, calls ++ [Call.readyState]⟩) := by
  constructor
  · intro d hd
    simp [savePayment, h, hr, hd]
  · intro hd
    simp [savePayment, h, hr, hd]

/-- C4: for a request that passes part 1 while the connection is ready, the
record handed to `save` is the one built from the request: its `status` is
`"completed"`, its `paymentId` is the request's (as a string), its
`isRecurring` is the truthiness of the request's; for a recurring request
`subscriptionId` is the request's and `orderId` is absent, for a one-time
request `orderId` is the request's and `subscriptionId` is absent; so exactly
one of the two is there and `isRecurring` says which.  That record is the
argument of the one `save`: the store after the handler is the store `save`
leaves for it, and the response is the one for the result `save` gives for it.
No other record is handed to `save`, and a record is built whenever the detail
fields are primitive values. -/
theorem savePayment_record_shape {σ : Type} (rt : Runtime) (db : Database σ) (env : Env)
    (body : Body) (store : σ)
    (hv : (verifySignature rt env body).1 = none) (hr : db.readyState store = 1) :
    (∀ d, Call.save d ∈ (savePayment rt db env body store).calls →
      buildDonation rt body = some d) ∧
    (∀ d, buildDonation rt body = some d →
      (savePayment rt db env body store).store = (db.save d store).2 ∧
      (savePayment rt db env body store).response = saveResponse body (db.save d store).1 ∧
      Call.save d ∈ (savePayment rt db env body store).calls ∧
      d.status = "completed" ∧
      jsToString rt (getField body "paymentId") = some d.paymentId ∧
      d.isRecurring = truthy (getField body "isRecurring") ∧
      (truthy (getField body "isRecurring") = true →
        d.orderId = none ∧
        ∃ sub, d.subscriptionId = some sub ∧
          jsToString rt (getField body "subscriptionId") = some sub) ∧
      (truthy (getField body "isRecurring") = false →
        d.subscriptionId = none ∧
        ∃ o, d.orderId = some o ∧ jsToString rt (getField body "orderId") = some o) ∧
      d.orderId.isSome ≠ d.subscriptionId.isSome ∧
      d.isRecurring = d.subscriptionId.isSome) ∧
    (buildDonation rt body = none →
      (savePayment rt db env body store).store = store ∧
      (savePayment rt db env body store).response = saveCatch rt.toPrimitiveError) ∧
    ((∀ key ∈ donationDetailFields, isPrimitive (getField body key) = true) →
      ∃ d, buildDonation rt body = some d) := by
  obtain ⟨-, m, hm, -, hver⟩ := verifySignature_passed rt env body hv
  obtain ⟨hsome, hnone⟩ := savePayment_calls_of_verified rt db env body store _ hver hr
  refine ⟨?_, ?_, ?_, fun hprim => buildDonation_defined rt body m hm hprim⟩
  · intro d hd
    cases hb : buildDonation rt body with
    | none =>
      rw [hnone hb] at hd
      simp at hd
    | some d0 =>
      rw [hsome d0 hb] at hd
      simp at hd
      rw [hd]
  · intro d hd
    obtain ⟨h1, h2, h3, h4, h5⟩ := buildDonation_shape rt body d hd
    refine ⟨by rw [hsome d hd], by rw [hsome d hd], by rw [hsome d hd]; simp,
      h1, h2, h3, h4, h5, ?_, ?_⟩
    · by_cases ht : truthy (getField body "isRecurring") = true
      · obtain ⟨ho, sub, hsub, -⟩ := h4 ht
        simp [ho, hsub]
      · simp only [Bool.not_eq_true] at ht
        obtain ⟨hs, o, ho, -⟩ := h5 ht
        simp [ho, hs]
    · by_cases ht : truthy (getField body "isRecurring") = true
      · obtain ⟨ho, sub, hsub, -⟩ := h4 ht
        simp [h3, ht, hsub]
      · simp only [Bool.not_eq_true] at ht
        obtain ⟨hs, o, ho, -⟩ := h5 ht
        simp [h3, ht, hs]
  · intro hb
    rw [hnone hb]
    exact ⟨rfl, rfl⟩

/-- The spec's one-time request, correctly signed, with the connection ready
and the store empty: the store then holds exactly one record, with
`orderId = "order_1"`, no `subscriptionId`, `paymentId = "pay_1"` and status
`"completed"`, and the response is 200. -/
theorem savePayment_record_shape_witness :
    (savePayment sampleRuntime sampleDatabase sampleEnv
        (oneTimeRequest "hmac:s:order_1|pay_1") ⟨1, []⟩).store =
      ⟨1, [{ name := "A", email := "", contact := "", address := "", pincode := "",
             amount := JsNum.fin 500, isRecurring := false, orderId := some "order_1",
             subscriptionId := none, paymentId := "pay_1", status := "completed",
             message := "" }]⟩ ∧
    (savePayment sampleRuntime sampleDatabase sampleEnv
        (oneTimeRequest "hmac:s:order_1|pay_1") ⟨1, []⟩).response.status = 200 :=
  have h := (savePayment_record_shape sampleRuntime sampleDatabase sampleEnv
    (oneTimeRequest "hmac:s:order_1|pay_1") ⟨1, []⟩ rfl rfl).2.1
    { name := "A", email := "", contact := "", address := "", pincode := "",
      amount := JsNum.fin 500, isRecurring := false, orderId := some "order_1",
      subscriptionId := none, paymentId := "pay_1", status := "completed", message := "" }
    rfl
  ⟨h.1.trans rfl, (congrArg Response.status h.2.1).trans rfl⟩

/-! ## Rounding to a double -/

theorem roundHalfEven_intCast (n : ℤ) : roundHalfEven (n : ℚ) = n := by
  simp [roundHalfEven]

/-- The binary exponent of a positive rational is pinned by the two powers of
two around it. -/
theorem intLog_eq (r : ℚ) (e : ℤ) (hr : 0 < r) (h1 : (2 : ℚ) ^ e ≤ r)
    (h2 : r < (2 : ℚ) ^ (e + 1)) : Int.log 2 r = e := by
  have a := (Int.zpow_le_iff_le_log (b := 2) (by norm_num) (x := e) hr).1 (by exact_mod_cast h1)
  have b := (Int.lt_zpow_iff_log_lt (b := 2) (by norm_num) (x := e + 1) hr).1
    (by exact_mod_cast h2)
  omega

/-- Natural numbers below `2 ^ 53` are doubles: rounding leaves them as they
are. -/
theorem roundToDouble_natCast (n : ℕ) (h : n < 2 ^ 53) :
    roundToDouble (n : ℚ) = JsNum.fin n := by
  by_cases h0 : n = 0
  · subst h0
    have hpos : (0 : ℚ) < 2 ^ (1024 : ℤ) := by positivity
    simp [roundToDouble, roundHalfEven, not_le.2 hpos]
  · have hlog : Nat.log 2 n < 53 := Nat.log_lt_of_lt_pow h0 h
    have hu : ulpExponent (n : ℚ) = -((52 - Nat.log 2 n : ℕ) : ℤ) := by
      unfold ulpExponent
      rw [abs_of_nonneg (by positivity), Int.log_natCast]
      omega
    have hx : |(n : ℚ)| / 2 ^ (-((52 - Nat.log 2 n : ℕ) : ℤ))
        = ((n * 2 ^ (52 - Nat.log 2 n) : ℤ) : ℚ) := by
      rw [abs_of_nonneg (by positivity), zpow_neg, zpow_natCast]
      push_cast
      field_simp
    have hr : ((n * 2 ^ (52 - Nat.log 2 n) : ℤ) : ℚ) * 2 ^ (-((52 - Nat.log 2 n : ℕ) : ℤ))
        = (n : ℚ) := by
      rw [zpow_neg, zpow_natCast]
      push_cast
      field_simp
    unfold roundToDouble
    simp only [hu, hx, roundHalfEven_intCast, hr]
    have hlt : ¬ ((2 : ℚ) ^ (1024 : ℤ) ≤ (n : ℚ)) := by
      rw [not_le]
      have : (n : ℚ) < (2 : ℚ) ^ 53 := by exact_mod_cast h
      refine lt_trans this ?_
      norm_num
    have hneg : ¬ ((n : ℚ) < 0) := by
      rw [not_lt]; positivity
    simp [hlt, hneg]

/-- Integers from 0 to below `2 ^ 53` are doubles. -/
theorem roundToDouble_intCast (z : ℤ) (h0 : 0 ≤ z) (h : z < 2 ^ 53) :
    roundToDouble (z : ℚ) = JsNum.fin z := by
  obtain ⟨n, rfl⟩ := Int.eq_ofNat_of_zero_le h0
  have hn : n < 2 ^ 53 := by exact_mod_cast h
  simpa using roundToDouble_natCast n hn

/-- The tenfold of 2000000000000001 lies halfway between two doubles and is
rounded to the even one, 20000000000000008. -/
theorem roundToDouble_tie :
    roundToDouble 20000000000000010 = JsNum.fin 20000000000000008 := by
  have hlog : Int.log 2 |(20000000000000010 : ℚ)| = 54 := by
    rw [abs_of_nonneg (by norm_num)]
    exact intLog_eq _ _ (by norm_num) (by norm_num) (by norm_num)
  have hfloor : ⌊(20000000000000010 : ℚ) / 4⌋ = 5000000000000002 := by
    rw [Int.floor_eq_iff]
    constructor <;> norm_num
  unfold roundToDouble ulpExponent
  rw [hlog, abs_of_nonneg (by norm_num)]
  norm_num [roundHalfEven, hfloor]

/-- Positive rationals below `2 ^ (-1075)` underflow to zero. -/
theorem roundToDouble_tiny (q : ℚ) (h0 : 0 < q) (h : q < 2 ^ (-1075 : ℤ)) :
    roundToDouble q = JsNum.fin 0 := by
  have hlog : Int.log 2 |q| < -1074 := by
    rw [abs_of_pos h0]
    exact (Int.lt_zpow_iff_log_lt (b := 2) (by norm_num) (x := -1074) h0).1
      (lt_trans (by exact_mod_cast h) (by norm_num))
  have hu : ulpExponent q = -1074 := by
    unfold ulpExponent
    omega
  have hx0 : 0 ≤ |q| / 2 ^ (-1074 : ℤ) := by positivity
  have hx1 : |q| / 2 ^ (-1074 : ℤ) < 1 / 2 := by
    rw [abs_of_pos h0, div_lt_iff₀ (by positivity)]
    refine lt_of_lt_of_le h (le_of_eq ?_)
    rw [show (1 / 2 : ℚ) = 2 ^ (-1 : ℤ) by norm_num, ← zpow_add₀ (by norm_num)]
    norm_num
  have hfloor : ⌊|q| / 2 ^ (-1074 : ℤ)⌋ = 0 := by
    rw [Int.floor_eq_iff]
    constructor
    · simpa using hx0
    · simp only [Int.cast_zero, zero_add]
      linarith
  have hround : roundHalfEven (|q| / 2 ^ (-1074 : ℤ)) = 0 := by
    unfold roundHalfEven
    simp only [hfloor, Int.cast_zero, sub_zero, hx1, if_true]
  unfold roundToDouble
  simp only [hu, hround]
  norm_num

theorem floor_le_roundHalfEven (x : ℚ) : ⌊x⌋ ≤ roundHalfEven x := by
  unfold roundHalfEven
  simp only
  split
  · exact le_refl _
  · split
    · omega
    · split <;> omega

/-- Rationals from `2 ^ 1024` on overflow to `Infinity`. -/
theorem roundToDouble_huge (q : ℚ) (h : (2 : ℚ) ^ (1024 : ℤ) ≤ q) :
    roundToDouble q = JsNum.posInf := by
  have hq : 0 < q := lt_of_lt_of_le (by positivity) h
  have hL : (1024 : ℤ) ≤ Int.log 2 |q| := by
    rw [abs_of_pos hq]
    exact (Int.zpow_le_iff_le_log (b := 2) (by norm_num) (x := 1024) hq).1
      (by rw [Nat.cast_ofNat]; exact h)
  have hu : ulpExponent q = Int.log 2 |q| - 52 := by
    unfold ulpExponent
    omega
  have hpow : (2 : ℚ) ^ (Int.log 2 |q|) ≤ |q| := by
    have := Int.zpow_log_le_self (b := 2) (r := |q|) (by norm_num) (abs_pos.2 hq.ne')
    exact_mod_cast this
  have hx : ((2 ^ 52 : ℤ) : ℚ) ≤ |q| / 2 ^ (Int.log 2 |q| - 52) := by
    rw [le_div_iff₀ (by positivity)]
    refine le_trans (le_of_eq ?_) hpow
    rw [zpow_sub₀ (by norm_num)]
    push_cast
    field_simp
    ring
  have hf : (2 ^ 52 : ℤ) ≤ roundHalfEven (|q| / 2 ^ (Int.log 2 |q| - 52)) :=
    le_trans (Int.le_floor.2 hx) (floor_le_roundHalfEven _)
  have hr : (2 : ℚ) ^ (1024 : ℤ) ≤
      (roundHalfEven (|q| / 2 ^ (Int.log 2 |q| - 52)) : ℚ) * 2 ^ (Int.log 2 |q| - 52) := by
    have h1 : ((2 ^ 52 : ℤ) : ℚ) * 2 ^ (Int.log 2 |q| - 52) ≤
        (roundHalfEven (|q| / 2 ^ (Int.log 2 |q| - 52)) : ℚ) * 2 ^ (Int.log 2 |q| - 52) := by
      apply mul_le_mul_of_nonneg_right _ (by positivity)
      exact_mod_cast hf
    refine le_trans ?_ h1
    have h2 : ((2 ^ 52 : ℤ) : ℚ) * 2 ^ (Int.log 2 |q| - 52) = (2 : ℚ) ^ (Int.log 2 |q|) := by
      rw [zpow_sub₀ (by norm_num)]
      push_cast
      field_simp
      ring
    rw [h2]
    exact zpow_le_zpow_right₀ (by norm_num) hL
  unfold roundToDouble
  simp only [hu, hr, if_true, hq]

/-- The product of `1e308` and 10 is `Infinity`. -/
theorem mul_overflow : (JsNum.fin (10 ^ 308)).mul (JsNum.fin 10) = JsNum.posInf := by
  simp only [JsNum.mul]
  apply roundToDouble_huge
  norm_num

/-- A literal of digits only, below `2 ^ 53`, denotes that number. -/
theorem value_decimal_nat (n : ℕ) (h : n < 2 ^ 53) :
    (NumericLiteral.decimal false n 0).value = JsNum.fin n := by
  simp [NumericLiteral.value, scale10, roundToDouble_natCast n h]

theorem StringToNumber_empty : StringToNumber "" = JsNum.fin 0 := by
  have h : readNumericLiteral "" = NumericLiteral.decimal false 0 0 := by decide
  rw [StringToNumber, h]
  simpa using value_decimal_nat 0 (by norm_num)

theorem StringToNumber_six : StringToNumber "6" = JsNum.fin 6 := by
  have h : readNumericLiteral "6" = NumericLiteral.decimal false 6 0 := by decide
  rw [StringToNumber, h]
  simpa using value_decimal_nat 6 (by norm_num)

/-- The literal `1e-400` is below every positive double: its number is 0. -/
theorem StringToNumber_underflow : StringToNumber "1e-400" = JsNum.fin 0 := by
  have h : readNumericLiteral "1e-400" = NumericLiteral.decimal false 1 (-400) := by decide
  rw [StringToNumber, h]
  simp only [NumericLiteral.value, scale10]
  apply roundToDouble_tiny
  · norm_num
  · norm_num

/-! ## `/create-order` -/

/-- A value whose number is positive is truthy. -/
theorem truthy_of_Number_pos (rt : Runtime) (v : JsVal) (q : ℚ)
    (h : Number rt v = some (JsNum.fin q)) (hq : 0 < q) : truthy v = true := by
  cases v with
  | undefined => simp [Number] at h
  | null =>
    simp only [Number, Option.some.injEq, JsNum.fin.injEq] at h
    rw [← h] at hq
    exact absurd hq (lt_irrefl _)
  | bool b =>
    cases b
    · simp [Number] at h
      rw [← h] at hq
      exact absurd hq (lt_irrefl _)
    · rfl
  | num n =>
    simp only [Number, Option.some.injEq] at h
    subst h
    simp [truthy, JsNum.isFalsy, ne_of_gt hq]
  | str s =>
    by_cases hs : s = ""
    · subst hs
      simp only [Number, Option.some.injEq, StringToNumber_empty, JsNum.fin.injEq] at h
      rw [← h] at hq
      exact absurd hq (lt_irrefl _)
    · simp [truthy, hs]
  | arr xs => rfl
  | obj fields => rfl

theorem orderResponse_status (result : Except JsError JsVal) :
    (orderResponse result).status ≠ 400 := by
  unfold orderResponse
  split
  · simp [gatewayCatch]
  · split <;> simp

/-- What `/create-order` does once the amount has passed validation: one call
to the gateway, whose result decides the response. -/
theorem createOrder_of_accepted (rt : Runtime) (gw : Gateway) (now : Nat) (body : Body)
    (n : JsNum) (ht : truthy (getField body "amount") = true)
    (hn : Number rt (getField body "amount") = some n) (hle : n.le0 = false) :
    createOrder rt gw now body =
      ⟨orderResponse (gw.ordersCreate
          { amount := n.mul (JsNum.fin 10)
            currency := "INR"
            receipt := "receipt_donation_" ++ toString now }),
        [Call.ordersCreate
          { amount := n.mul (JsNum.fin 10)
            currency := "INR"
            receipt := "receipt_donation_" ++ toString now }]⟩ := by
  simp [createOrder, ht, hn, hle]

/-- What `/create-order` does with an amount that fails validation. -/
theorem createOrder_of_rejected (rt : Runtime) (gw : Gateway) (now : Nat) (body : Body)
    (h : truthy (getField body "amount") = false ∨
      ∃ n, Number rt (getField body "amount") = some n ∧ n.le0 = true) :
    (createOrder rt gw now body).calls = [] := by
  by_cases ht : truthy (getField body "amount") = true
  · rcases h with h | ⟨n, hn, hle⟩
    · simp [ht] at h
    · simp [createOrder, ht, hn, hle]
  · simp only [Bool.not_eq_true] at ht
    simp [createOrder, ht]

/-- C7, as the code has it: for an amount whose number is the integer `a`, the
handler accepts it (calls the gateway) exactly when `a` is positive.  It then
makes one call, `orders.create` with currency `"INR"` and as amount the double
nearest to `10 × a`, and answers according to what the gateway returns for
these very options.  When `10 × a` is below `2 ^ 53` that amount is `10 × a`
itself. -/
theorem createOrder_sends_ten_times (rt : Runtime) (gw : Gateway) (now : Nat) (body : Body)
    (a : ℤ) (ha : Number rt (getField body "amount") = some (JsNum.fin (a : ℚ))) :
    ((createOrder rt gw now body).calls ≠ [] ↔ 0 < a) ∧
    (0 < a →
      (createOrder rt gw now body).calls =
        [Call.ordersCreate
          { amount := roundToDouble ((10 * a : ℤ) : ℚ)
            currency := "INR"
            receipt := "receipt_donation_" ++ toString now }] ∧
      (createOrder rt gw now body).response =
        orderResponse (gw.ordersCreate
          { amount := roundToDouble ((10 * a : ℤ) : ℚ)
            currency := "INR"
            receipt := "receipt_donation_" ++ toString now })) ∧
    (0 < a → 10 * a < 2 ^ 53 →
      (createOrder rt gw now body).calls =
        [Call.ordersCreate
          { amount := JsNum.fin ((10 * a : ℤ) : ℚ)
            currency := "INR"
            receipt := "receipt_donation_" ++ toString now }] ∧
      (createOrder rt gw now body).response =
        orderResponse (gw.ordersCreate
          { amount := JsNum.fin ((10 * a : ℤ) : ℚ)
            currency := "INR"
            receipt := "receipt_donation_" ++ toString now })) := by
  have hmul : (JsNum.fin (a : ℚ)).mul (JsNum.fin 10) = roundToDouble ((10 * a : ℤ) : ℚ) := by
    simp [JsNum.mul, mul_comm]
  have hpos : 0 < a →
      createOrder rt gw now body =
        ⟨orderResponse (gw.ordersCreate
            { amount := roundToDouble ((10 * a : ℤ) : ℚ)
              currency := "INR"
              receipt := "receipt_donation_" ++ toString now }),
          [Call.ordersCreate
            { amount := roundToDouble ((10 * a : ℤ) : ℚ)
              currency := "INR"
              receipt := "receipt_donation_" ++ toString now }]⟩ := by
    intro h
    have hq : (0 : ℚ) < (a : ℚ) := by exact_mod_cast h
    have ht := truthy_of_Number_pos rt _ _ ha hq
    have hle : (JsNum.fin (a : ℚ)).le0 = false := by
      simpa [JsNum.le0] using h
    rw [createOrder_of_accepted rt gw now body _ ht ha hle, hmul]
  refine ⟨⟨?_, fun h => by rw [hpos h]; simp⟩, fun h => by rw [hpos h]; exact ⟨rfl, rfl⟩, ?_⟩
  · intro hcalls
    by_contra hneg
    apply hcalls
    apply createOrder_of_rejected
    right
    refine ⟨_, ha, ?_⟩
    have hq : (a : ℚ) ≤ 0 := by exact_mod_cast (not_lt.1 hneg)
    simp [JsNum.le0, hq]
  · intro h hsafe
    rw [hpos h, roundToDouble_intCast (10 * a) (by omega) hsafe]
    exact ⟨rfl, rfl⟩

/-- The spec's example: `amount = 500` is sent as `amount = 5000`, currency
`"INR"`. -/
theorem createOrder_sends_ten_times_witness :
    (createOrder sampleRuntime sampleGateway 0 [("amount", JsVal.num (JsNum.fin 500))]).calls =
      [Call.ordersCreate
        { amount := JsNum.fin 5000
          currency := "INR"
          receipt := "receipt_donation_" ++ toString 0 }] := by
  have h := ((createOrder_sends_ten_times sampleRuntime sampleGateway 0
    [("amount", JsVal.num (JsNum.fin 500))] 500 (by simp [getField, Number])).2.2
    (by decide) (by norm_num)).1
  rw [h]
  norm_num

/-- C7 as written fails at the amount 2000000000000001: its tenfold,
20000000000000010, is not a double, and the gateway is sent
20000000000000008. -/
theorem createOrder_large_amount_counterexample :
    getField largeAmountRequest "amount" = JsVal.num (JsNum.fin 2000000000000001) ∧
    (createOrder sampleRuntime sampleGateway 0 largeAmountRequest).calls =
      [Call.ordersCreate
        { amount := JsNum.fin 20000000000000008
          currency := "INR"
          receipt := "receipt_donation_" ++ toString 0 }] ∧
    (createOrder sampleRuntime sampleGateway 0 largeAmountRequest).response =
      ⟨200, JsVal.obj [("id", JsVal.str "order_1"),
        ("amount", JsVal.num (JsNum.fin 20000000000000008)),
        ("currency", JsVal.str "INR")]⟩ ∧
    JsNum.fin 20000000000000008 ≠ JsNum.fin (10 * 2000000000000001) := by
  have ht : truthy (getField largeAmountRequest "amount") = true := by
    simp [largeAmountRequest, getField, truthy, JsNum.isFalsy]
  have hn : Number sampleRuntime (getField largeAmountRequest "amount")
      = some (JsNum.fin 2000000000000001) := by
    simp [largeAmountRequest, getField, Number]
  have hle : (JsNum.fin 2000000000000001).le0 = false := by
    simp [JsNum.le0]
  have hmul : (JsNum.fin 2000000000000001).mul (JsNum.fin 10)
      = JsNum.fin 20000000000000008 := by
    rw [← roundToDouble_tie]
    simp only [JsNum.mul]
    norm_num
  refine ⟨by simp [largeAmountRequest, getField], ?_, ?_, by norm_num⟩
  · rw [createOrder_of_accepted sampleRuntime sampleGateway 0 _ _ ht hn hle, hmul]
  · rw [createOrder_of_accepted sampleRuntime sampleGateway 0 _ _ ht hn hle, hmul]
    rfl

/-- C6, the code at `amount = 500` rupees: the amount sent to the gateway is
5000, not the 50000 paise that 500 rupees are. -/
theorem createOrder_amount_500_sends_5000 (rt : Runtime) (gw : Gateway) (now : Nat) :
    (createOrder rt gw now [("amount", JsVal.num (JsNum.fin 500))]).calls =
      [Call.ordersCreate
        { amount := JsNum.fin 5000
          currency := "INR"
          receipt := "receipt_donation_" ++ toString now }] ∧
    JsNum.fin 5000 ≠ JsNum.fin (100 * 500) := by
  have ht : truthy (getField [("amount", JsVal.num (JsNum.fin 500))] "amount") = true := by
    simp [getField, truthy, JsNum.isFalsy]
  have hn : Number rt (getField [("amount", JsVal.num (JsNum.fin 500))] "amount")
      = some (JsNum.fin 500) := by
    simp [getField, Number]
  have hle : (JsNum.fin 500).le0 = false := by
    simp [JsNum.le0]
  have hmul : (JsNum.fin 500).mul (JsNum.fin 10) = JsNum.fin 5000 := by
    have h := roundToDouble_natCast 5000 (by norm_num)
    simp only [JsNum.mul]
    norm_num at h ⊢
    exact h
  rw [createOrder_of_accepted rt gw now _ _ ht hn hle, hmul]
  refine ⟨rfl, ?_⟩
  simp
  norm_num

/-- C5, the code at `amount = "abc"`: the amount passes validation (its number
is `NaN`, and `NaN <= 0` is false), the gateway is called with `amount = NaN`,
and the response is not a 400. -/
theorem createOrder_amount_abc_reaches_gateway (rt : Runtime) (gw : Gateway) (now : Nat) :
    (createOrder rt gw now [("amount", JsVal.str "abc")]).calls =
      [Call.ordersCreate
        { amount := JsNum.nan
          currency := "INR"
          receipt := "receipt_donation_" ++ toString now }] ∧
    (createOrder rt gw now [("amount", JsVal.str "abc")]).response.status ≠ 400 := by
  have ht : truthy (getField [("amount", JsVal.str "abc")] "amount") = true := by
    simp [getField, truthy]
  have hs : StringToNumber "abc" = JsNum.nan := by
    have h : readNumericLiteral "abc" = NumericLiteral.invalid := by decide
    rw [StringToNumber, h]
    rfl
  have hn : Number rt (getField [("amount", JsVal.str "abc")] "amount") = some JsNum.nan := by
    simp [getField, Number, hs]
  rw [createOrder_of_accepted rt gw now _ _ ht hn rfl]
  exact ⟨rfl, orderResponse_status _⟩

/-! ## `/create-subscription` -/

/-- What `/create-subscription` does when the plan is configured and the
body's `total_count` converts. -/
theorem createSubscription_calls (rt : Runtime) (gw : Gateway) (env : Env) (body : Body)
    (fromBody : JsVal) (hplan : envSet env.RAZORPAY_PLAN_ID = true)
    (hb : totalCountFromBody rt body = some fromBody) :
    sendsTotalCount rt gw env (createSubscription rt gw env body) (totalCount fromBody env) := by
  simp [sendsTotalCount, createSubscription, hplan, hb]

theorem totalCountFromEnv_of_set (env : Env) (s : String)
    (hs : env.RAZORPAY_SUBSCRIPTION_CYCLES = some s) (hne : s ≠ "") :
    totalCountFromEnv env = JsVal.num (StringToNumber s) := by
  unfold totalCountFromEnv
  rw [hs]
  simp [hne]

theorem totalCountFromEnv_of_unset (env : Env)
    (h : env.RAZORPAY_SUBSCRIPTION_CYCLES = none ∨ env.RAZORPAY_SUBSCRIPTION_CYCLES = some "") :
    totalCountFromEnv env = JsVal.undefined := by
  unfold totalCountFromEnv
  rcases h with h | h <;> simp [h]

/-- C8, as the code has it: with a plan configured, the `total_count` sent is
the number of the body's `total_count` when the body has one and that number
is neither 0 nor `NaN`; otherwise the number of `RAZORPAY_SUBSCRIPTION_CYCLES`
when that is set, not empty, and its number is neither 0 nor `NaN`; otherwise
12.  In each case the gateway is called once, with that `total_count`, and its
result decides the response.  When the body's `total_count` has no number (the
conversion throws), nothing is sent. -/
theorem createSubscription_total_count (rt : Runtime) (gw : Gateway) (env : Env) (body : Body)
    (hplan : envSet env.RAZORPAY_PLAN_ID = true) :
    (∀ n, getField body "total_count" ≠ JsVal.undefined →
      Number rt (getField body "total_count") = some n → n.isFalsy = false →
      sendsTotalCount rt gw env (createSubscription rt gw env body) (JsVal.num n)) ∧
    ((getField body "total_count" = JsVal.undefined ∨
        ∃ n, Number rt (getField body "total_count") = some n ∧ n.isFalsy = true) →
      (∀ s, env.RAZORPAY_SUBSCRIPTION_CYCLES = some s → s ≠ "" →
        (StringToNumber s).isFalsy = false →
        sendsTotalCount rt gw env (createSubscription rt gw env body)
          (JsVal.num (StringToNumber s))) ∧
      ((env.RAZORPAY_SUBSCRIPTION_CYCLES = none ∨
          env.RAZORPAY_SUBSCRIPTION_CYCLES = some "" ∨
          ∃ s, env.RAZORPAY_SUBSCRIPTION_CYCLES = some s ∧
            (StringToNumber s).isFalsy = true) →
        sendsTotalCount rt gw env (createSubscription rt gw env body)
          (JsVal.num (JsNum.fin 12)))) ∧
    (Number rt (getField body "total_count") = none →
      (createSubscription rt gw env body).calls = [] ∧
      (createSubscription rt gw env body).response = gatewayCatch rt.toPrimitiveError) := by
  have hfb : ∀ n, getField body "total_count" ≠ JsVal.undefined →
      Number rt (getField body "total_count") = some n →
      totalCountFromBody rt body = some (JsVal.num n) := by
    intro n hu hn
    unfold totalCountFromBody
    split
    · rename_i heq
      exact absurd heq hu
    · simp [hn]
  have hfalsy : (getField body "total_count" = JsVal.undefined ∨
        ∃ n, Number rt (getField body "total_count") = some n ∧ n.isFalsy = true) →
      ∃ fb, totalCountFromBody rt body = some fb ∧ truthy fb = false := by
    intro h
    by_cases hu : getField body "total_count" = JsVal.undefined
    · exact ⟨JsVal.undefined, by simp [totalCountFromBody, hu], rfl⟩
    · rcases h with h | ⟨n, hn, hf⟩
      · exact absurd h hu
      · exact ⟨JsVal.num n, hfb n hu hn, by simp [truthy, hf]⟩
  refine ⟨?_, ?_, ?_⟩
  · intro n hu hn hf
    have h := createSubscription_calls rt gw env body _ hplan (hfb n hu hn)
    have htc : totalCount (JsVal.num n) env = JsVal.num n := by
      simp [totalCount, jsOr, truthy, hf]
    rw [htc] at h
    exact h
  · intro h
    obtain ⟨fb, hfbeq, hfbt⟩ := hfalsy h
    have hsend := createSubscription_calls rt gw env body _ hplan hfbeq
    have htc : totalCount fb env
        = jsOr (totalCountFromEnv env) (JsVal.num (JsNum.fin 12)) := by
      unfold totalCount
      rw [show jsOr fb (totalCountFromEnv env) = totalCountFromEnv env by
        unfold jsOr; rw [hfbt]; rfl]
    rw [htc] at hsend
    constructor
    · intro s hs hne hf
      have hv : jsOr (totalCountFromEnv env) (JsVal.num (JsNum.fin 12))
          = JsVal.num (StringToNumber s) := by
        rw [totalCountFromEnv_of_set env s hs hne]
        unfold jsOr
        simp [truthy, hf]
      rw [hv] at hsend
      exact hsend
    · intro h2
      have hv : jsOr (totalCountFromEnv env) (JsVal.num (JsNum.fin 12))
          = JsVal.num (JsNum.fin 12) := by
        rcases h2 with h2 | h2 | ⟨s, hs, hf⟩
        · rw [totalCountFromEnv_of_unset env (Or.inl h2)]
          rfl
        · rw [totalCountFromEnv_of_unset env (Or.inr h2)]
          rfl
        · by_cases hne : s = ""
          · subst hne
            rw [totalCountFromEnv_of_unset env (Or.inr hs)]
            rfl
          · rw [totalCountFromEnv_of_set env s hs hne]
            unfold jsOr
            simp [truthy, hf]
      rw [hv] at hsend
      exact hsend
  · intro hnone
    have hu : getField body "total_count" ≠ JsVal.undefined := by
      intro hu
      simp [hu, Number] at hnone
    have : totalCountFromBody rt body = none := by
      unfold totalCountFromBody
      split
      · rename_i heq
        exact absurd heq hu
      · simp [hnone]
    simp [createSubscription, hplan, this]

/-- C8 as written fails at `total_count = 0`: with
`RAZORPAY_SUBSCRIPTION_CYCLES = "6"` the body supplies 0 and the gateway is
sent 6. -/
theorem createSubscription_total_count_zero_counterexample :
    getField [("total_count", JsVal.num (JsNum.fin 0))] "total_count" = JsVal.num (JsNum.fin 0) ∧
    (createSubscription sampleRuntime sampleGateway sixCyclesEnv
        [("total_count", JsVal.num (JsNum.fin 0))]).calls =
      [Call.subscriptionsCreate
        { plan_id := "plan_1", customer_notify := 1, total_count := JsVal.num (JsNum.fin 6) }] ∧
    (createSubscription sampleRuntime sampleGateway sixCyclesEnv
        [("total_count", JsVal.num (JsNum.fin 0))]).response =
      ⟨200, JsVal.obj [("success", JsVal.bool true), ("subscriptionId", JsVal.str "sub_1"),
        ("subscription", JsVal.obj [("id", JsVal.str "sub_1"), ("plan_id", JsVal.str "plan_1"),
          ("total_count", JsVal.num (JsNum.fin 6))])]⟩ ∧
    JsVal.num (JsNum.fin 6) ≠ JsVal.num (JsNum.fin 0) := by
  have hb : totalCountFromBody sampleRuntime [("total_count", JsVal.num (JsNum.fin 0))]
      = some (JsVal.num (JsNum.fin 0)) := by
    simp [totalCountFromBody, getField, Number]
  have htc : totalCount (JsVal.num (JsNum.fin 0)) sixCyclesEnv = JsVal.num (JsNum.fin 6) := by
    simp [totalCount, jsOr, truthy, JsNum.isFalsy, totalCountFromEnv, sixCyclesEnv,
      StringToNumber_six]
  have h := createSubscription_calls sampleRuntime sampleGateway sixCyclesEnv _ _ rfl hb
  rw [htc] at h
  refine ⟨by simp [getField], h.1, ?_, by simp⟩
  rw [h.2]
  rfl

/-- With `RAZORPAY_SUBSCRIPTION_CYCLES = "6"`: a body with `total_count = 5` is
sent 5, and a body with `total_count = "1e-400"`, whose number is 0, is sent
6. -/
theorem createSubscription_total_count_witness :
    sendsTotalCount sampleRuntime sampleGateway sixCyclesEnv
      (createSubscription sampleRuntime sampleGateway sixCyclesEnv
        [("total_count", JsVal.num (JsNum.fin 5))]) (JsVal.num (JsNum.fin 5)) ∧
    sendsTotalCount sampleRuntime sampleGateway sixCyclesEnv
      (createSubscription sampleRuntime sampleGateway sixCyclesEnv
        [("total_count", JsVal.str "1e-400")]) (JsVal.num (JsNum.fin 6)) := by
  refine ⟨(createSubscription_total_count sampleRuntime sampleGateway sixCyclesEnv
    [("total_count", JsVal.num (JsNum.fin 5))] rfl).1 (JsNum.fin 5)
    (by simp [getField]) (by simp [getField, Number]) (by simp [JsNum.isFalsy]), ?_⟩
  have h := ((createSubscription_total_count sampleRuntime sampleGateway sixCyclesEnv
    [("total_count", JsVal.str "1e-400")] rfl).2.1
    (Or.inr ⟨JsNum.fin 0, by simp [getField, Number, StringToNumber_underflow],
      by simp [JsNum.isFalsy]⟩)).1 "6" rfl (by decide)
    (by simp [StringToNumber_six, JsNum.isFalsy])
  rw [StringToNumber_six] at h
  exact h

end Reiwametta
